import Mathlib

/-!
Shallow embedding of the environmental-data aggregation and AI-routing core
of the orpheusAI repository (Express server: `server/routes/alerts`-style
route file in `src/server/server.js`, chat route file `src/unnamed/part_004`).

Modelling conventions:
* JavaScript values flowing through the modelled code are represented by the
  `Json` inductive; `JSON.parse` and `JSON.stringify` are modelled by the
  executable `jsonParse` / `jsonStringify` below.
* `Date.now()` is an `Int` parameter `now` (milliseconds); ISO and calendar
  date strings are `String` parameters.
* Upstream HTTP calls (the Perplexity / Gemini endpoints) are oracles: an
  `Except String String` value per call site — `.error` models a thrown
  `axios`/API error, `.ok text` models the returned message text.
* The mutable module-level `NodeCache` and rate-limit `Map` are threaded
  explicitly as values.
-/

/-- JavaScript JSON value. Numbers keep their literal text (no arithmetic is
performed on parsed numbers anywhere in the modelled code). -/
inductive Json where
  | null
  | bool (b : Bool)
  | num (raw : String)
  | str (s : String)
  | arr (elems : List Json)
  | obj (fields : List (String × Json))

/-- Opening brace character (written via its code point). -/
def braceOpen : Char := Char.ofNat 123

/-- Closing brace character (written via its code point). -/
def braceClose : Char := Char.ofNat 125

/-- Field lookup in a JSON object, `none` on non-objects or missing keys. -/
def jsonGet (j : Json) (key : String) : Option Json :=
  match j with
  | Json.obj fields =>
    match fields.find? (fun f => f.1 = key) with
    | some f => some f.2
    | none => none
  | _ => none

/-- Whitespace skipping for the JSON parser. -/
def skipWs : List Char → List Char
  | [] => []
  | c :: cs => if c = ' ' ∨ c = '\n' ∨ c = '\t' ∨ c = '\r' then skipWs cs else c :: cs

/-- ASCII digit test. -/
def isDigitChar (c : Char) : Bool := '0' ≤ c && c ≤ '9'

/-- Splits a leading run of digits off a character list. -/
def takeDigits : List Char → (List Char × List Char)
  | [] => ([], [])
  | c :: cs =>
    if isDigitChar c then
      let p := takeDigits cs
      (c :: p.1, p.2)
    else ([], c :: cs)

/-- Hex digit value for \u escapes. -/
def hexVal (c : Char) : Nat :=
  if isDigitChar c then c.toNat - 48
  else if 'a' ≤ c && c ≤ 'f' then c.toNat - 87
  else if 'A' ≤ c && c ≤ 'F' then c.toNat - 55
  else 0

/-- Parses the body of a JSON string literal (after the opening quote),
returning the decoded characters and the remainder after the closing quote. -/
def parseStringChars : List Char → Option (List Char × List Char)
  | [] => none
  | c :: cs =>
    if c = '"' then some ([], cs)
    else if c = '\\' then
      match cs with
      | [] => none
      | e :: cs2 =>
        if e = 'u' then
          match cs2 with
          | a :: b :: c3 :: d :: cs3 =>
            match parseStringChars cs3 with
            | some p =>
              some (Char.ofNat (((hexVal a * 16 + hexVal b) * 16 + hexVal c3) * 16 + hexVal d) :: p.1, p.2)
            | none => none
          | _ => none
        else
          let decoded : Char :=
            if e = 'n' then '\n'
            else if e = 't' then '\t'
            else if e = 'r' then '\r'
            else if e = 'b' then Char.ofNat 8
            else if e = 'f' then Char.ofNat 12
            else e
          match parseStringChars cs2 with
          | some p => some (decoded :: p.1, p.2)
          | none => none
    else
      match parseStringChars cs with
      | some p => some (c :: p.1, p.2)
      | none => none

/-- Parses a JSON number's characters (sign, integer, fraction, exponent). -/
def parseNumberChars (cs : List Char) : Option (List Char × List Char) :=
  let signSplit : List Char × List Char :=
    match cs with
    | c :: rest => if c = '-' then ([c], rest) else ([], cs)
    | [] => ([], [])
  let ip := takeDigits signSplit.2
  if ip.1 = [] then none
  else
    let fracSplit : List Char × List Char :=
      match ip.2 with
      | c :: rest =>
        if c = '.' then
          let fd := takeDigits rest
          if fd.1 = [] then ([], ip.2) else (c :: fd.1, fd.2)
        else ([], ip.2)
      | [] => ([], [])
    let expSplit : List Char × List Char :=
      match fracSplit.2 with
      | c :: rest =>
        if c = 'e' ∨ c = 'E' then
          match rest with
          | s :: rest2 =>
            if s = '+' ∨ s = '-' then
              let ed := takeDigits rest2
              if ed.1 = [] then ([], fracSplit.2) else (c :: s :: ed.1, ed.2)
            else
              let ed := takeDigits rest
              if ed.1 = [] then ([], fracSplit.2) else (c :: ed.1, ed.2)
          | [] => ([], fracSplit.2)
        else ([], fracSplit.2)
      | [] => ([], [])
    some (signSplit.1 ++ ip.1 ++ fracSplit.1 ++ expSplit.1, expSplit.2)

/-- Fuel-based JSON value parser. `mode = 0` parses one value, `mode = 1`
parses array elements up to `]`, `mode = 2` parses object members up to the
closing brace (the element/member results are wrapped in `Json.arr` /
`Json.obj`). Structural recursion on fuel keeps it kernel-evaluable. -/
def parseJsonAux : Nat → Nat → List Char → Option (Json × List Char)
  | 0, _, _ => none
  | Nat.succ fuel, mode, cs =>
    if mode = 0 then
      match skipWs cs with
      | [] => none
      | c :: rest =>
        if c = braceOpen then
          match skipWs rest with
          | d :: rest2 =>
            if d = braceClose then some (Json.obj [], rest2)
            else parseJsonAux fuel 2 (d :: rest2)
          | [] => none
        else if c = '[' then
          match skipWs rest with
          | d :: rest2 =>
            if d = ']' then some (Json.arr [], rest2)
            else parseJsonAux fuel 1 (d :: rest2)
          | [] => none
        else if c = '"' then
          match parseStringChars rest with
          | some p => some (Json.str (String.mk p.1), p.2)
          | none => none
        else if c = 't' then
          match rest with
          | 'r' :: 'u' :: 'e' :: r => some (Json.bool true, r)
          | _ => none
        else if c = 'f' then
          match rest with
          | 'a' :: 'l' :: 's' :: 'e' :: r => some (Json.bool false, r)
          | _ => none
        else if c = 'n' then
          match rest with
          | 'u' :: 'l' :: 'l' :: r => some (Json.null, r)
          | _ => none
        else
          match parseNumberChars (c :: rest) with
          | some p => some (Json.num (String.mk p.1), p.2)
          | none => none
    else if mode = 1 then
      match parseJsonAux fuel 0 cs with
      | some (v, r) =>
        match skipWs r with
        | c :: r2 =>
          if c = ',' then
            match parseJsonAux fuel 1 r2 with
            | some (Json.arr vs, r3) => some (Json.arr (v :: vs), r3)
            | _ => none
          else if c = ']' then some (Json.arr [v], r2)
          else none
        | [] => none
      | none => none
    else
      match skipWs cs with
      | c :: r =>
        if c = '"' then
          match parseStringChars r with
          | some kp =>
            match skipWs kp.2 with
            | d :: r2 =>
              if d = ':' then
                match parseJsonAux fuel 0 r2 with
                | some (v, r3) =>
                  match skipWs r3 with
                  | e :: r4 =>
                    if e = ',' then
                      match parseJsonAux fuel 2 r4 with
                      | some (Json.obj fs, r5) => some (Json.obj ((String.mk kp.1, v) :: fs), r5)
                      | _ => none
                    else if e = braceClose then some (Json.obj [(String.mk kp.1, v)], r4)
                    else none
                  | [] => none
                | none => none
              else none
            | [] => none
          | none => none
        else none
      | [] => none

/-- Model of `JSON.parse`: parses one value and requires only trailing
whitespace after it; any failure yields `none` (a thrown `SyntaxError`). -/
def jsonParse (s : String) : Option Json :=
  match parseJsonAux (2 * s.data.length + 8) 0 s.data with
  | some (v, rest) => if skipWs rest = [] then some v else none
  | none => none

/-- JSON string escaping for `jsonStringify`. -/
def jsonEscapeChar (c : Char) : String :=
  if c = '"' then "\\\""
  else if c = '\\' then "\\\\"
  else if c = '\n' then "\\n"
  else if c = '\t' then "\\t"
  else if c = '\r' then "\\r"
  else String.singleton c

/-- Model of `JSON.stringify` on JSON values (no spacing argument). -/
def jsonStringify : Json → String
  | Json.null => "null"
  | Json.bool true => "true"
  | Json.bool false => "false"
  | Json.num raw => raw
  | Json.str s => "\"" ++ String.join (s.data.map jsonEscapeChar) ++ "\""
  | Json.arr elems => "[" ++ String.intercalate "," (stringifyList elems) ++ "]"
  | Json.obj fields => String.singleton braceOpen
      ++ String.intercalate "," (stringifyFields fields) ++ String.singleton braceClose
where
  stringifyList : List Json → List String
    | [] => []
    | e :: es => jsonStringify e :: stringifyList es
  stringifyFields : List (String × Json) → List String
    | [] => []
    | f :: fs =>
      ("\"" ++ String.join (f.1.data.map jsonEscapeChar) ++ "\":" ++ jsonStringify f.2)
        :: stringifyFields fs

/-! ## TTL cache store (model of the module-level `NodeCache` instance) -/

/-- One cache entry: key, stored value, absolute expiry timestamp (ms). -/
structure CacheEntry where
  key : String
  value : Json
  expiresAt : Int

/-- The cache is an association list, newest entry first. -/
abbrev Cache := List CacheEntry

/-- Model of `cache.get(key)`: a lazy expiry check at read time; an entry is
servable while `now ≤ expiresAt` and a miss afterwards. -/
def cacheGet (c : Cache) (now : Int) (k : String) : Option Json :=
  match c.find? (fun e => e.key = k) with
  | some e => if now ≤ e.expiresAt then some e.value else none
  | none => none

/-- Model of `cache.set(key, value, ttlSeconds)`: overwrites any entry for the
same key; the entry expires `ttlSeconds * 1000` ms after `now`. -/
def cacheSet (c : Cache) (now : Int) (k : String) (v : Json) (ttlSeconds : Int) : Cache :=
  ⟨k, v, now + ttlSeconds * 1000⟩ :: c.filter (fun e => e.key ≠ k)

/-! ## Sliding-window rate limiter (`checkRateLimit` in `src/server/server.js`) -/

/-- Model of the module-level `apiCallLimiter` Map: identity → timestamps. -/
abbrev RateMap := List (String × List Int)

/-- Model of `Map.get` with the `|| []` default used at the call site. -/
def rateMapGet (m : RateMap) (k : String) : List Int :=
  match m.find? (fun e => e.1 = k) with
  | some e => e.2
  | none => []

/-- Model of `Map.set`: replaces the binding for `k`. -/
def rateMapSet (m : RateMap) (k : String) (v : List Int) : RateMap :=
  (k, v) :: m.filter (fun e => e.1 ≠ k)

/-- `RATE_LIMIT_WINDOW` (ms). -/
def RATE_LIMIT_WINDOW : Int := 60000

/-- `MAX_API_CALLS_PER_MINUTE`. -/
def MAX_API_CALLS_PER_MINUTE : Nat := 20

/-- Timestamps of `userCalls` younger than the window at time `now`. -/
def recentCallsOf (m : RateMap) (identifier : String) (now : Int) : List Int :=
  (rateMapGet m identifier).filter (fun timestamp => now - timestamp < RATE_LIMIT_WINDOW)

/-- Model of `checkRateLimit(identifier)` at clock reading `now`: prunes the
stale timestamps, denies without recording when at capacity, otherwise records
`now` and admits. Returns the admission decision and the updated map. -/
def checkRateLimit (m : RateMap) (identifier : String) (now : Int) : Bool × RateMap :=
  let recentCalls := recentCallsOf m identifier now
  if recentCalls.length ≥ MAX_API_CALLS_PER_MINUTE then
    (false, m)
  else
    (true, rateMapSet m identifier (recentCalls ++ [now]))

/-- Replays a sequence of `(identifier, now)` admission checks from a map. -/
def runChecks : RateMap → List (String × Int) → RateMap
  | m, [] => m
  | m, c :: rest => runChecks (checkRateLimit m c.1 c.2).2 rest

/-- Replays checks and also collects each admission decision, in order. -/
def runChecksResults : RateMap → List (String × Int) → List Bool × RateMap
  | m, [] => ([], m)
  | m, c :: rest =>
    let r := checkRateLimit m c.1 c.2
    let t := runChecksResults r.2 rest
    (r.1 :: t.1, t.2)

/-- Every stored timestamp list is within the capacity bound. -/
def rateMapBounded (m : RateMap) : Prop :=
  ∀ id : String, (rateMapGet m id).length ≤ MAX_API_CALLS_PER_MINUTE

/-! ## JavaScript numbers arriving in JSON request bodies

A coordinate such as `39.7684451` is modelled by the exact decimal it was
transmitted as: `mantissa / 10 ^ scale`. The modelled code never does
arithmetic on coordinates — it only tests truthiness (`!location.lat`) and
interpolates them into template strings — so the decimal-literal model is
faithful as long as the renderer below agrees with JavaScript's number
printing on the decimals used, which it does for reduced representations. -/
structure JsNumber where
  mantissa : Int
  scale : Nat
deriving DecidableEq

/-- JavaScript falsiness of a number: only `0` (and `NaN`) are falsy. -/
def JsNumber.isZero (n : JsNumber) : Bool := n.mantissa = 0

/-- Left-pads a digit string with zeros to the given width. -/
def padLeftZeros (s : String) (width : Nat) : String :=
  String.mk (List.replicate (width - s.length) '0') ++ s

/-- Template-literal rendering of a JS number (model of `String(n)`). -/
def JsNumber.render (n : JsNumber) : String :=
  let sign := if n.mantissa < 0 then "-" else ""
  let a := n.mantissa.natAbs
  if n.scale = 0 then sign ++ Nat.repr a
  else
    let p := 10 ^ n.scale
    sign ++ Nat.repr (a / p) ++ "." ++ padLeftZeros (Nat.repr (a % p)) n.scale

/-- Spec-side comparison definition for the words "rounded geographic
coordinates": the coordinate value rounded half-up at `p` decimal places,
as a scaled integer. The source computes no such rounding; this definition
exists only to compare the implemented cache keys against the spec. -/
def roundedCoordSpec (p : Nat) (n : JsNumber) : Int :=
  (n.mantissa * (10 : Int) ^ p * 2 + (10 : Int) ^ n.scale) / (2 * (10 : Int) ^ n.scale)

/-- Request location object: `{lat, lng, address}`. -/
structure Location where
  lat : JsNumber
  lng : JsNumber
  address : String
deriving DecidableEq

/-! ## Extraction of a JSON candidate from upstream text

Each provider runs `response.match(/\x7b[\s\S]*\x7d/)`. That regular
expression finds its leftmost match and its quantifier is greedy, so when a
match exists it spans from the first opening brace to the last closing brace
of the whole text. -/

/-- Suffix of `cs` starting at its first opening brace, if any. -/
def suffixFromFirstBrace : List Char → Option (List Char)
  | [] => none
  | c :: cs => if c = braceOpen then some (c :: cs) else suffixFromFirstBrace cs

/-- Suffix of `cs` starting at its first closing brace, if any. -/
def suffixFromFirstClose : List Char → Option (List Char)
  | [] => none
  | c :: cs => if c = braceClose then some (c :: cs) else suffixFromFirstClose cs

/-- Prefix of `cs` ending at (and including) its last closing brace. -/
def prefixThroughLastClose (cs : List Char) : Option (List Char) :=
  match suffixFromFirstClose cs.reverse with
  | some r => some r.reverse
  | none => none

/-- Model of `text.match(/\x7b[\s\S]*\x7d/)`, returning `jsonMatch[0]`:
the substring from the first opening brace to the last closing brace, or
`none` when the regex does not match. -/
def jsonObjectRegexMatch (cs : List Char) : Option (List Char) :=
  match suffixFromFirstBrace cs with
  | some suf =>
    match prefixThroughLastClose suf with
    | some pre => if pre.length ≥ 2 then some pre else none
    | none => none
  | none => none

/-- The text handed to `JSON.parse` by a provider:
`jsonMatch ? jsonMatch[0] : response`. -/
def candidateText (response : String) : String :=
  match jsonObjectRegexMatch response.data with
  | some cs => String.mk cs
  | none => response

/-- Model of the spec sentence "extracting the first balanced JSON object
substring": from the first opening brace, scan with a brace-depth counter and
stop at the matching close. Kept separate from `jsonObjectRegexMatch`, which
is translated from the source, so the two can be compared. -/
def firstBalancedObjectSpec (cs : List Char) : Option (List Char) :=
  match suffixFromFirstBrace cs with
  | some suf => balancedPrefix suf 0 []
  | none => none
where
  balancedPrefix : List Char → Int → List Char → Option (List Char)
    | [], _, _ => none
    | c :: cs, depth, acc =>
      if c = braceOpen then balancedPrefix cs (depth + 1) (c :: acc)
      else if c = braceClose then
        if depth ≤ 1 then some (c :: acc).reverse
        else balancedPrefix cs (depth - 1) (c :: acc)
      else balancedPrefix cs depth (c :: acc)

/-! ## Provider clients (the six fetchers in `src/server/server.js`)

All six share one body shape: compute a cache key, answer from cache on a
hit; otherwise call `queryPerplexity` (the oracle argument), extract and
`JSON.parse` a JSON candidate — on parse failure substitute the domain
default — and cache whatever that produced under the domain TTL; if the
upstream call itself threw, return the domain default without touching the
cache. The boolean in the result records whether the upstream was called. -/

/-- Shared fetcher body. -/
def fetchProvider (cacheKey : String) (defaultData : Json) (ttlSeconds : Int)
    (cache : Cache) (now : Int) (upstream : Except String String) :
    Json × Cache × Bool :=
  match cacheGet cache now cacheKey with
  | some cached => (cached, cache, false)
  | none =>
    match upstream with
    | Except.error _ => (defaultData, cache, true)
    | Except.ok response =>
      let data :=
        match jsonParse (candidateText response) with
        | some parsed => parsed
        | none => defaultData
      (data, cacheSet cache now cacheKey data ttlSeconds, true)

/-- The value a provider fetch produces when its cache misses: the parsed
upstream payload, or the domain default on upstream error or parse failure. -/
def providerValue (upstream : Except String String) (defaultData : Json) : Json :=
  match upstream with
  | Except.error _ => defaultData
  | Except.ok response =>
    match jsonParse (candidateText response) with
    | some parsed => parsed
    | none => defaultData

/-- Fallback/default weather payload (identical in the parse-failure and
upstream-error branches of `getWeatherData`). -/
def weatherDefault : Json := Json.obj
  [ ("temperature", Json.str "N/A")
  , ("feelsLike", Json.str "N/A")
  , ("conditions", Json.str "Data unavailable")
  , ("humidity", Json.str "N/A")
  , ("uvIndex", Json.str "N/A")
  , ("windSpeed", Json.str "N/A")
  , ("precipitation", Json.bool false)
  , ("heatWarning", Json.bool false) ]

/-- Default air-quality payload. -/
def airQualityDefault : Json := Json.obj
  [ ("aqi", Json.str "N/A")
  , ("quality", Json.str "Data unavailable")
  , ("pm25", Json.str "N/A")
  , ("pollutants", Json.arr [])
  , ("healthImpact", Json.null) ]

/-- Default traffic payload. -/
def trafficDefault : Json := Json.obj
  [ ("conditions", Json.str "Moderate")
  , ("estimatedDelay", Json.str "N/A")
  , ("closures", Json.arr [Json.str "No major closures reported"])
  , ("accidents", Json.arr [])
  , ("hotspots", Json.arr []) ]

/-- Default health payload. -/
def healthDefault : Json := Json.obj
  [ ("pollenCount", Json.str "Moderate")
  , ("fluActivity", Json.str "Low")
  , ("allergens", Json.arr [])
  , ("covidUpdates", Json.arr [])
  , ("healthAdvisories", Json.arr []) ]

/-- Default crime payload. -/
def crimeDefault : Json := Json.obj
  [ ("shootings", Json.arr [])
  , ("robberies", Json.arr [])
  , ("incidents", Json.arr [])
  , ("areasToAvoid", Json.arr []) ]

/-- Default market payload. -/
def marketDefault : Json := Json.obj
  [ ("bankHolidays", Json.arr [])
  , ("marketClosures", Json.arr [])
  , ("businessHours", Json.arr [])
  , ("governmentOffices", Json.arr []) ]

/-- Cache key of `getWeatherData`. -/
def weatherCacheKey (location : Location) : String :=
  "weather_" ++ location.lat.render ++ "_" ++ location.lng.render

/-- Cache key of `getAirQualityData`. -/
def airQualityCacheKey (location : Location) : String :=
  "air_quality_" ++ location.lat.render ++ "_" ++ location.lng.render

/-- Cache key of `getTrafficData`. -/
def trafficCacheKey (location : Location) : String :=
  "traffic_" ++ location.lat.render ++ "_" ++ location.lng.render

/-- Cache key of `getHealthData`. -/
def healthCacheKey (location : Location) : String :=
  "health_" ++ location.lat.render ++ "_" ++ location.lng.render

/-- Cache key of `getCrimeData`. -/
def crimeCacheKey (location : Location) : String :=
  "crime_" ++ location.lat.render ++ "_" ++ location.lng.render

/-- Cache key of `getMarketData` (`markets_` + `new Date().toDateString()`;
the calendar date string is a parameter of the model). -/
def marketCacheKey (dateStr : String) : String :=
  "markets_" ++ dateStr

/-- `getWeatherData(location)`: TTL 600 s. -/
def getWeatherData (cache : Cache) (now : Int) (location : Location)
    (upstream : Except String String) : Json × Cache × Bool :=
  fetchProvider (weatherCacheKey location) weatherDefault 600 cache now upstream

/-- `getAirQualityData(location)`: TTL 600 s. -/
def getAirQualityData (cache : Cache) (now : Int) (location : Location)
    (upstream : Except String String) : Json × Cache × Bool :=
  fetchProvider (airQualityCacheKey location) airQualityDefault 600 cache now upstream

/-- `getTrafficData(location)`: TTL 300 s. -/
def getTrafficData (cache : Cache) (now : Int) (location : Location)
    (upstream : Except String String) : Json × Cache × Bool :=
  fetchProvider (trafficCacheKey location) trafficDefault 300 cache now upstream

/-- `getHealthData(location, userPreferences)`: TTL 1800 s. The
`userPreferences` argument is folded into the upstream prompt only — it is
absorbed by the upstream oracle and in particular is not part of the cache
key. -/
def getHealthData (cache : Cache) (now : Int) (location : Location)
    (userPreferences : Json) (upstream : Except String String) : Json × Cache × Bool :=
  fetchProvider (healthCacheKey location) healthDefault 1800 cache now upstream

/-- `getCrimeData(location)`: TTL 1800 s. -/
def getCrimeData (cache : Cache) (now : Int) (location : Location)
    (upstream : Except String String) : Json × Cache × Bool :=
  fetchProvider (crimeCacheKey location) crimeDefault 1800 cache now upstream

/-- `getMarketData(location)`: TTL 3600 s, key scoped by calendar date, not
by the (unused) location argument. -/
def getMarketData (cache : Cache) (now : Int) (dateStr : String)
    (location : Location) (upstream : Except String String) : Json × Cache × Bool :=
  fetchProvider (marketCacheKey dateStr) marketDefault 3600 cache now upstream

/-! ## Aggregation orchestrator (`router.post('/environmental-data')`) -/

/-- The per-request upstream behaviors for the six provider calls. -/
structure EnvUpstreams where
  weather : Except String String
  airQuality : Except String String
  traffic : Except String String
  health : Except String String
  crime : Except String String
  markets : Except String String

/-- `JSON.stringify(userPreferences)` as interpolated into the composite key;
an absent body field stringifies to the text `undefined` in the template. -/
def stringifyPrefs : Option Json → String
  | some j => jsonStringify j
  | none => "undefined"

/-- The composite cache key
`environmental_data_${lat}_${lng}_${JSON.stringify(userPreferences)}`. -/
def environmentalCacheKey (location : Location) (userPreferences : Option Json) : String :=
  "environmental_data_" ++ location.lat.render ++ "_" ++ location.lng.render
    ++ "_" ++ stringifyPrefs userPreferences

/-- The composite snapshot object assembled by the route. All six fetchers
are total, so every `Promise.allSettled` slot is `fulfilled` and each field
receives the fetcher's value; the `null` branch for `rejected` slots is dead
code under this model (the fetchers catch every failure internally). -/
def mkEnvironmentalData (weather airQuality traffic health crime markets : Json)
    (nowIso : String) (address : String) : Json :=
  Json.obj
    [ ("weather", weather)
    , ("airQuality", airQuality)
    , ("traffic", traffic)
    , ("health", health)
    , ("crime", crime)
    , ("markets", markets)
    , ("lastUpdated", Json.str nowIso)
    , ("location", Json.str address) ]

/-- Outcome of one `/environmental-data` request: HTTP status, response body,
the cache and rate-limit map afterwards, how many upstream calls were issued,
and whether the rate limiter was consulted. -/
structure EnvOutcome where
  status : Nat
  body : Json
  cache : Cache
  rateMap : RateMap
  upstreamCalls : Nat
  rateLimiterConsulted : Bool

/-- The 400 validation-error body. -/
def missingLocationBody : Json := Json.obj
  [ ("error", Json.str "Missing required location data")
  , ("required", Json.arr
      [Json.str "location.lat", Json.str "location.lng", Json.str "location.address"]) ]

/-- The 429 rate-limit body. -/
def rateLimitBody : Json := Json.obj
  [ ("error", Json.str "Rate limit exceeded")
  , ("message", Json.str "Too many requests. Please try again in a minute.") ]

/-- The health fetch argument `userPreferences || {}`. -/
def prefsOrEmpty : Option Json → Json
  | some p => p
  | none => Json.obj []

/-- Model of the `/environmental-data` handler. Validation mirrors
`!location || !location.lat || !location.lng || !location.address`: a missing
object, a zero coordinate, or an empty address string is falsy and rejected.
The six fetches run concurrently in the source against one shared cache;
their cache keys are pairwise distinct, so threading the cache through them
sequentially is observationally equivalent. -/
def environmentalDataRoute (cache : Cache) (rateMap : RateMap) (now : Int)
    (nowIso : String) (dateStr : String) (clientIP : String)
    (location : Option Location) (userPreferences : Option Json)
    (ups : EnvUpstreams) : EnvOutcome :=
  match location with
  | none => ⟨400, missingLocationBody, cache, rateMap, 0, false⟩
  | some loc =>
    if loc.lat.isZero ∨ loc.lng.isZero ∨ loc.address = "" then
      ⟨400, missingLocationBody, cache, rateMap, 0, false⟩
    else
      let rc := checkRateLimit rateMap clientIP now
      if rc.1 = false then
        ⟨429, rateLimitBody, cache, rc.2, 0, true⟩
      else
        let cacheKey := environmentalCacheKey loc userPreferences
        match cacheGet cache now cacheKey with
        | some cachedData => ⟨200, cachedData, cache, rc.2, 0, true⟩
        | none =>
          let rw := getWeatherData cache now loc ups.weather
          let ra := getAirQualityData rw.2.1 now loc ups.airQuality
          let rt := getTrafficData ra.2.1 now loc ups.traffic
          let rh := getHealthData rt.2.1 now loc (prefsOrEmpty userPreferences) ups.health
          let rc2 := getCrimeData rh.2.1 now loc ups.crime
          let rm := getMarketData rc2.2.1 now dateStr loc ups.markets
          let environmentalData :=
            mkEnvironmentalData rw.1 ra.1 rt.1 rh.1 rc2.1 rm.1 nowIso loc.address
          let cacheAfter := cacheSet rm.2.1 now cacheKey environmentalData 300
          let calls := [rw.2.2, ra.2.2, rt.2.2, rh.2.2, rc2.2.2, rm.2.2].countP (fun b => b)
          ⟨200, environmentalData, cacheAfter, rc.2, calls, true⟩

/-- The weather step of the fan-out (first in the modelled threading). -/
def fanoutW (cache : Cache) (now : Int) (loc : Location) (ups : EnvUpstreams) :
    Json × Cache × Bool :=
  getWeatherData cache now loc ups.weather

/-- The air-quality step of the fan-out. -/
def fanoutA (cache : Cache) (now : Int) (loc : Location) (ups : EnvUpstreams) :
    Json × Cache × Bool :=
  getAirQualityData (fanoutW cache now loc ups).2.1 now loc ups.airQuality

/-- The traffic step of the fan-out. -/
def fanoutT (cache : Cache) (now : Int) (loc : Location) (ups : EnvUpstreams) :
    Json × Cache × Bool :=
  getTrafficData (fanoutA cache now loc ups).2.1 now loc ups.traffic

/-- The health step of the fan-out. -/
def fanoutH (cache : Cache) (now : Int) (loc : Location) (prefs : Option Json)
    (ups : EnvUpstreams) : Json × Cache × Bool :=
  getHealthData (fanoutT cache now loc ups).2.1 now loc (prefsOrEmpty prefs) ups.health

/-- The crime step of the fan-out. -/
def fanoutC (cache : Cache) (now : Int) (loc : Location) (prefs : Option Json)
    (ups : EnvUpstreams) : Json × Cache × Bool :=
  getCrimeData (fanoutH cache now loc prefs ups).2.1 now loc ups.crime

/-- The market step of the fan-out. -/
def fanoutM (cache : Cache) (now : Int) (dateStr : String) (loc : Location)
    (prefs : Option Json) (ups : EnvUpstreams) : Json × Cache × Bool :=
  getMarketData (fanoutC cache now loc prefs ups).2.1 now dateStr loc ups.markets

/-- The snapshot body assembled by a fresh (composite-miss) aggregation. -/
def envBody (cache : Cache) (now : Int) (nowIso dateStr : String) (loc : Location)
    (prefs : Option Json) (ups : EnvUpstreams) : Json :=
  mkEnvironmentalData (fanoutW cache now loc ups).1 (fanoutA cache now loc ups).1
    (fanoutT cache now loc ups).1 (fanoutH cache now loc prefs ups).1
    (fanoutC cache now loc prefs ups).1 (fanoutM cache now dateStr loc prefs ups).1
    nowIso loc.address

/-- The number of upstream calls a fresh aggregation issues. -/
def envCalls (cache : Cache) (now : Int) (dateStr : String) (loc : Location)
    (prefs : Option Json) (ups : EnvUpstreams) : Nat :=
  List.countP (fun b => b)
    [(fanoutW cache now loc ups).2.2, (fanoutA cache now loc ups).2.2,
     (fanoutT cache now loc ups).2.2, (fanoutH cache now loc prefs ups).2.2,
     (fanoutC cache now loc prefs ups).2.2, (fanoutM cache now dateStr loc prefs ups).2.2]

/-! ## Query classifier (`determineAiSource` in the chat route file) -/

/-- ASCII lower-casing of one character (model of `toLowerCase` restricted to
the ASCII queries the classifier is exercised on). -/
def asciiLowerChar (c : Char) : Char :=
  if 'A' ≤ c && c ≤ 'Z' then Char.ofNat (c.toNat + 32) else c

/-- ASCII lower-casing of a string. -/
def asciiToLower (s : String) : String := String.mk (s.data.map asciiLowerChar)

/-- Substring containment (model of `String.prototype.includes`). -/
def containsSubstr : List Char → List Char → Bool
  | needle, [] => List.isPrefixOf needle []
  | needle, c :: t => List.isPrefixOf needle (c :: t) || containsSubstr needle t

/-- The `realTimeKeywords` array, verbatim. -/
def realTimeKeywords : List String :=
  [ "news", "breaking", "latest", "recent", "today", "yesterday", "this week", "current events"
  , "happening now", "live", "update", "announcement", "press release"
  , "weather", "temperature", "rain", "snow", "forecast", "climate", "storm", "hurricane"
  , "sunny", "cloudy", "wind", "humidity"
  , "verify", "fact check", "is it true", "confirm", "validate", "check if", "real or fake"
  , "stock price", "market", "trading", "nasdaq", "dow jones", "cryptocurrency", "bitcoin"
  , "score", "game result", "match", "tournament", "championship", "playoffs"
  , "traffic", "road conditions", "accident", "construction", "transit", "flight status"
  , "right now", "at this moment", "currently", "as of today", "real time", "live data"
  , "status", "availability", "open now", "closed", "hours of operation"
  , "upcoming", "this year", "this month", "next week", "next day", "as of now"
  , "tomorrow" ]

/-- Characters that the JavaScript regex `.` does not match. -/
def isJsNewline (c : Char) : Bool :=
  c = '\n' || c = '\r' || c.toNat = 8232 || c.toNat = 8233

/-- A `timeSensitivePatterns` entry has the shape `lit(.*lit)*` with one
alternation group, so it is modelled as the list of its literal segments,
each a list of alternatives. Matching semantics of `pattern.test(query)` with
the `/i` flag: somewhere in the string, the segments occur in order,
separated by gaps free of newline characters (which `.` cannot match); case
folding is applied to the subject, the literals being already lower-case.
`mode 0` matches the segment chain anchored at the current position, `mode 1`
allows a `.*` gap before the rest of the chain, `mode 2` is the unanchored
leftmost-match search. Structural recursion on fuel keeps it kernel-evaluable;
the fuel passed by `patternMatches` strictly exceeds the recursion depth. -/
def patStep : Nat → Nat → List (List String) → List Char → Bool
  | 0, _, _, _ => false
  | Nat.succ fuel, mode, segs, cs =>
    if mode = 0 then
      match segs with
      | [] => true
      | alts :: rest =>
        alts.any (fun lit => List.isPrefixOf lit.data cs && patStep fuel 1 rest (cs.drop lit.data.length))
    else if mode = 1 then
      patStep fuel 0 segs cs ||
        (match cs with
         | [] => false
         | c :: cs2 => !isJsNewline c && patStep fuel 1 segs cs2)
    else
      patStep fuel 0 segs cs ||
        (match cs with
         | [] => false
         | _ :: cs2 => patStep fuel 2 segs cs2)

/-- Whether a pattern (list of literal segments) matches a subject string. -/
def patternMatches (segs : List (List String)) (cs : List Char) : Bool :=
  patStep ((segs.length + 2) * (cs.length + 2) + 8) 2 segs cs

/-- The `timeSensitivePatterns` array as segment lists:
`what.*(happened|happening).*today`, `latest.*on`, `current.*status`,
`is.*open.*now`, `weather.*in`, `news.*about`, `stock.*price`,
`verify.*that`, `fact.*check` (all with the `/i` flag). -/
def timeSensitivePatterns : List (List (List String)) :=
  [ [["what"], ["happened", "happening"], ["today"]]
  , [["latest"], ["on"]]
  , [["current"], ["status"]]
  , [["is"], ["open"], ["now"]]
  , [["weather"], ["in"]]
  , [["news"], ["about"]]
  , [["stock"], ["price"]]
  , [["verify"], ["that"]]
  , [["fact"], ["check"]] ]

/-- Model of `determineAiSource(query)`: `"perplexity"` when the lower-cased
query contains a real-time keyword or the query matches a time-sensitive
pattern, `"gemini"` otherwise. -/
def determineAiSource (query : String) : String :=
  let queryLower := asciiToLower query
  let needsRealTimeInfo := realTimeKeywords.any (fun keyword => containsSubstr keyword.data queryLower.data)
  let hasTimeSensitivePattern := timeSensitivePatterns.any (fun pat => patternMatches pat (asciiToLower query).data)
  if needsRealTimeInfo || hasTimeSensitivePattern then "perplexity" else "gemini"

/-! ## Prompt construction and the chat orchestrator (chat route file) -/

/-- Whitespace test for the model of `String.prototype.trim`. -/
def isTrimWs (c : Char) : Bool := c = ' ' || c = '\n' || c = '\t' || c = '\r'

/-- Model of `String.prototype.trim` (structural, kernel-evaluable). -/
def jsTrim (s : String) : String :=
  String.mk (((s.data.dropWhile isTrimWs).reverse.dropWhile isTrimWs).reverse)

/-- A conversation turn as the chat route reads it: `role` and
`parts[0].text`. (The route only ever accesses `msg.role` and
`msg.parts[0].text`; histories are modelled as arrays of turns on which those
accesses succeed, an empty `text` standing for a falsy `parts[0].text`.) -/
structure Turn where
  role : String
  text : String
deriving DecidableEq

/-- The user profile fields interpolated into the system prompt. -/
structure UserData where
  name : String
  zipCode : String
  phone : String
  bloodGroup : String
  gender : String
deriving DecidableEq

/-- Model of `Array.prototype.slice(-k)`: the suffix of the last `k`
elements (the whole list when shorter). -/
def lastN (k : Nat) (l : List α) : List α := l.drop (l.length - k)

/-- The `contextHistory` rendering inside `getSystemPrompt`: the last six
turns as `User:`/`Assistant:` lines, empty for an empty history. -/
def contextHistory (conversationHistory : List Turn) : String :=
  if conversationHistory.length > 0 then
    String.intercalate "\n"
      ((lastN 6 conversationHistory).map
        (fun msg => (if msg.role = "user" then "User" else "Assistant") ++ ": " ++ msg.text))
  else ""

/-- `getSystemPrompt(conversationHistory, userData)`: the fixed Orpheus role
template with the user profile and the last-six-turn context interpolated. -/
def getSystemPrompt (conversationHistory : List Turn) (userData : UserData) : String :=
  "You are **Orpheus**, a specialized civic assistant for Indianapolis, Indiana residents. You help with city services, public information, and civic duties.\n\n"
  ++ "**PRIMARY FOCUS**: Indianapolis city services, government, public utilities, civic engagement, local resources, and community information.\n\n"
  ++ "**USER INFORMATION**:\n"
  ++ "- Name: " ++ userData.name ++ "\n"
  ++ "- Location: " ++ userData.zipCode ++ ", Indiana\n"
  ++ "- Phone: " ++ userData.phone ++ "\n"
  ++ "- Blood Group: " ++ userData.bloodGroup ++ "\n"
  ++ "- Gender: " ++ userData.gender ++ "\n\n"
  ++ "**CONVERSATION CONTEXT**:\n" ++ contextHistory conversationHistory ++ "\n\n"
  ++ "**YOUR ROLE**:\n"
  ++ "- Help with Indianapolis city services (permits, utilities, trash collection, etc.)\n"
  ++ "- Provide information about local government, city council, mayor\x27s office\n"
  ++ "- Assist with civic duties (voting, jury duty, taxes, etc.)\n"
  ++ "- Share resources for Indianapolis residents (libraries, parks, public transportation)\n"
  ++ "- Guide users to appropriate city departments and services\n"
  ++ "- Answer questions about Indianapolis neighborhoods, zip codes, and local areas\n\n"
  ++ "**INTERACTION GUIDELINES**:\n"
  ++ "- Keep responses concise (1-3 sentences) unless detailed explanation is needed\n"
  ++ "- Always personalize responses using the user\x27s information when relevant\n"
  ++ "- For casual conversation, be friendly but steer back to civic topics when appropriate\n"
  ++ "- If asked about non-Indianapolis topics, politely redirect to local civic matters\n"
  ++ "- Provide specific Indianapolis department contact information when relevant\n"
  ++ "- Include relevant website links for city services when helpful\n\n"
  ++ "**RESPONSE STYLE**:\n"
  ++ "- Professional yet friendly tone\n"
  ++ "- Factual and helpful\n"
  ++ "- Include actionable steps when possible\n"
  ++ "- Reference specific Indianapolis services and departments\n\n"
  ++ "Remember: You specialize in Indianapolis civic services and public information. For general topics, provide brief responses and offer to help with Indianapolis-specific civic matters instead."

/-- The real-time addendum appended to the system prompt for Perplexity. -/
def perplexitySystemSuffix : String :=
  "\n\nIMPORTANT: You have access to real-time information and web search. Provide current, accurate, and up-to-date information. Always cite your sources when providing recent information. And remeber every info is personalised for Indianapolis, Indiana"

/-- The `cleanedHistory` of `callPerplexityAPI`: last five turns, turns with
falsy text dropped, roles normalized to user/assistant, text trimmed. -/
def cleanedHistoryPerplexity (conversationHistory : List Turn) : List (String × String) :=
  ((lastN 5 conversationHistory).filter (fun msg => msg.text ≠ "")).map
    (fun msg => (if msg.role = "user" then "user" else "assistant", jsTrim msg.text))

/-- The `messages` array sent upstream by `callPerplexityAPI`. -/
def perplexityMessages (query : String) (conversationHistory : List Turn)
    (userData : UserData) : List (String × String) :=
  ("system", getSystemPrompt conversationHistory userData ++ perplexitySystemSuffix)
    :: cleanedHistoryPerplexity conversationHistory ++ [("user", jsTrim query)]

/-- One part of a Gemini content entry. -/
inductive GPart where
  | text (t : String)
  | inlineData (mimeType : String) (base64Data : String)
deriving DecidableEq

/-- One entry of the Gemini `contents` array. -/
structure GContent where
  role : String
  parts : List GPart
deriving DecidableEq

/-- An uploaded file as handed to `callGeminiAPI`. -/
structure FileData where
  base64Data : String
  mimeType : String
deriving DecidableEq

/-- The `cleanedHistory` of `callGeminiAPI`: as for Perplexity but with the
assistant role rendered as `model` and parts-wrapped text. -/
def cleanedHistoryGemini (conversationHistory : List Turn) : List GContent :=
  ((lastN 5 conversationHistory).filter (fun msg => msg.text ≠ "")).map
    (fun msg => ⟨if msg.role = "user" then "user" else "model", [GPart.text (jsTrim msg.text)]⟩)

/-- The canned model acknowledgement inserted when the history is empty. -/
def geminiPrimerReply : String :=
  "I understand. I\x27m Orpheus, your Indianapolis civic assistant. How can I help you with city services or civic matters today?"

/-- The `contents` array sent upstream by `callGeminiAPI`: when the cleaned
history is empty the system prompt is injected as a first user message with a
canned model reply; the current user message carries the optional inline
file. -/
def geminiContents (query : String) (conversationHistory : List Turn)
    (userData : UserData) (fileData : Option FileData) : List GContent :=
  let cleaned := cleanedHistoryGemini conversationHistory
  let userParts :=
    GPart.text (jsTrim query) ::
      (match fileData with
       | some f => [GPart.inlineData f.mimeType f.base64Data]
       | none => [])
  (if cleaned.length = 0 then
    [⟨"user", [GPart.text (getSystemPrompt conversationHistory userData)]⟩,
     ⟨"model", [GPart.text geminiPrimerReply]⟩]
   else []) ++ cleaned ++ [⟨"user", userParts⟩]

/-! ## The `/send` route handler (chat orchestrator) -/

/-- Per-request behavior of the two AI backend calls. A call is invoked at
most once per request, so one oracle value per backend is fully general.
`.error` covers a thrown axios error, a missing API key, and (for Gemini) an
invalid response shape. -/
structure ChatBehavior where
  perplexity : Except String String
  gemini : Except String String

/-- Outcome of one `/send` request: HTTP status, `success` flag, `response`
text, error `message`, the reported `aiSource`, and the number of calls
issued to each backend. -/
structure SendResult where
  status : Nat
  success : Bool
  response : Option String
  errorMessage : Option String
  aiSource : String
  perplexityCalls : Nat
  geminiCalls : Nat
deriving DecidableEq

/-- Model of `router.post('/send')` after multer/file/JSON-field handling:
validates the message, classifies it, calls the classified backend, and —
only on the Perplexity branch — falls back to Gemini once; `actualSource` is
updated to `gemini` only after the fallback call returns, so the error path
after a failed fallback still reports `perplexity`. The parsed history, user
data and file feed only the backend calls, which the oracles absorb. -/
def sendHandler (message : String) (beh : ChatBehavior) : SendResult :=
  if jsTrim message = "" then
    ⟨400, false, none, some "Message is required and must be a non-empty string", "", 0, 0⟩
  else
    let aiSource := determineAiSource message
    if aiSource = "perplexity" then
      match beh.perplexity with
      | Except.ok r => ⟨200, true, some r, none, "perplexity", 1, 0⟩
      | Except.error _ =>
        match beh.gemini with
        | Except.ok r => ⟨200, true, some r, none, "gemini", 1, 1⟩
        | Except.error m => ⟨500, false, none, some m, "perplexity", 1, 1⟩
    else
      match beh.gemini with
      | Except.ok r => ⟨200, true, some r, none, "gemini", 0, 1⟩
      | Except.error m => ⟨500, false, none, some m, "gemini", 0, 1⟩

/-! ## Theorems -/

/-- A concrete all-failing upstream bundle, used for witnesses. -/
def upsAllFail : EnvUpstreams :=
  ⟨Except.error "down", Except.error "down", Except.error "down",
   Except.error "down", Except.error "down", Except.error "down"⟩

/-- C6: query classification is a pure deterministic function of the query
string; it selects the LIVE backend (`"perplexity"`) iff the lower-cased
query contains a trigger term or matches a time-sensitive pattern, and the
GENERAL backend (`"gemini"`) otherwise; the two reference queries classify
as LIVE and GENERAL respectively. -/
theorem claim_c6_classifier :
    (∀ query : String,
      determineAiSource query = "perplexity" ↔
        (realTimeKeywords.any (fun keyword => containsSubstr keyword.data (asciiToLower query).data)
          || timeSensitivePatterns.any (fun pat => patternMatches pat (asciiToLower query).data)) = true)
    ∧ (∀ query : String,
        determineAiSource query = "perplexity" ∨ determineAiSource query = "gemini")
    ∧ determineAiSource "What\x27s the weather like today in Indianapolis?" = "perplexity"
    ∧ determineAiSource "Explain how property tax assessments work" = "gemini" := by
  refine ⟨fun query => ?_, fun query => ?_, by decide, by decide⟩
  · by_cases h :
      ((realTimeKeywords.any fun keyword => containsSubstr keyword.data (asciiToLower query).data)
        || timeSensitivePatterns.any fun pat => patternMatches pat (asciiToLower query).data) = true
    · simp [determineAiSource, h]
    · simp [determineAiSource, h]
  · by_cases h :
      ((realTimeKeywords.any fun keyword => containsSubstr keyword.data (asciiToLower query).data)
        || timeSensitivePatterns.any fun pat => patternMatches pat (asciiToLower query).data) = true
    · simp [determineAiSource, h]
    · simp [determineAiSource, h]

/-- C10: a present location with latitude 0, longitude 0, or an empty
address is treated as missing by the falsy-field validation: the route
returns the 400 missing-location body and leaves the cache and rate-limit
map untouched, consults neither, and issues no upstream call. -/
theorem claim_c10_falsy_location_validation :
    ∀ (cache : Cache) (rateMap : RateMap) (now : Int) (nowIso dateStr clientIP : String)
      (loc : Location) (prefs : Option Json) (ups : EnvUpstreams),
      (loc.lat.isZero ∨ loc.lng.isZero ∨ loc.address = "") →
      environmentalDataRoute cache rateMap now nowIso dateStr clientIP (some loc) prefs ups
        = ⟨400, missingLocationBody, cache, rateMap, 0, false⟩ := by
  intro cache rateMap now nowIso dateStr clientIP loc prefs ups h
  unfold environmentalDataRoute
  dsimp only
  rw [if_pos h]

/-- Witness for C10 at the valid coordinate pair `lat = 0`, `lng = -86.15`:
the request is rejected with 400 and full state preservation. -/
theorem claim_c10_witness :
    environmentalDataRoute [] [] 0 "2025-01-01T00:00:00.000Z" "Wed Jan 01 2025" "1.2.3.4"
        (some ⟨⟨0, 0⟩, ⟨-8615, 2⟩, "Indianapolis, IN"⟩) none upsAllFail
      = ⟨400, missingLocationBody, [], [], 0, false⟩ :=
  claim_c10_falsy_location_validation [] [] 0 "2025-01-01T00:00:00.000Z" "Wed Jan 01 2025"
    "1.2.3.4" ⟨⟨0, 0⟩, ⟨-8615, 2⟩, "Indianapolis, IN"⟩ none upsAllFail (by decide)

/-- Reading back the key just set returns the new timestamp list. -/
theorem rateMapGet_set_self (m : RateMap) (k : String) (v : List Int) :
    rateMapGet (rateMapSet m k v) k = v := by
  simp [rateMapGet, rateMapSet, List.find?]

/-- Searching for one key is unaffected by filtering out a different key. -/
theorem find?_filter_ne (m : RateMap) (k k' : String) (h : k' ≠ k) :
    List.find? (fun e => e.1 = k') (m.filter (fun e => e.1 ≠ k))
      = List.find? (fun e => e.1 = k') m := by
  induction m with
  | nil => rfl
  | cons a as ih =>
    by_cases hak : a.1 = k
    · have ha' : ¬a.1 = k' := by rw [hak]; exact Ne.symm h
      rw [List.filter_cons, if_neg (by simp [hak]), ih,
        List.find?_cons_of_neg as (by simp [ha'])]
    · by_cases ha' : a.1 = k'
      · rw [List.filter_cons, if_pos (by simp [hak]),
          List.find?_cons_of_pos _ (by simp [ha']),
          List.find?_cons_of_pos _ (by simp [ha'])]
      · rw [List.filter_cons, if_pos (by simp [hak]),
          List.find?_cons_of_neg _ (by simp [ha']),
          List.find?_cons_of_neg _ (by simp [ha']), ih]

/-- Setting one key leaves every other key's timestamp list unchanged. -/
theorem rateMapGet_set_other (m : RateMap) (k k' : String) (v : List Int)
    (h : k' ≠ k) : rateMapGet (rateMapSet m k v) k' = rateMapGet m k' := by
  unfold rateMapGet rateMapSet
  rw [List.find?_cons_of_neg _ (by simp [Ne.symm h]), find?_filter_ne m k k' h]

/-- One admission check preserves the capacity bound on stored lists. -/
theorem checkRateLimit_preserves_bound (m : RateMap) (id : String) (now : Int)
    (h : rateMapBounded m) : rateMapBounded (checkRateLimit m id now).2 := by
  unfold checkRateLimit
  by_cases hcap : (recentCallsOf m id now).length ≥ MAX_API_CALLS_PER_MINUTE
  · simpa [hcap] using h
  · intro id'
    simp only [hcap, if_neg, ite_false]
    by_cases hid : id' = id
    · subst hid
      rw [rateMapGet_set_self]
      have : (recentCallsOf m id' now).length < MAX_API_CALLS_PER_MINUTE := Nat.lt_of_not_le hcap
      simpa [List.length_append] using this
    · rw [rateMapGet_set_other m id id' _ hid]
      exact h id'

/-- Replaying any sequence of checks preserves the capacity bound. -/
theorem runChecks_preserves_bound (calls : List (String × Int)) (m : RateMap)
    (h : rateMapBounded m) : rateMapBounded (runChecks m calls) := by
  induction calls generalizing m with
  | nil => simpa [runChecks] using h
  | cons c rest ih =>
    exact ih _ (checkRateLimit_preserves_bound m c.1 c.2 h)

/-- C5: each admission check prunes the identity's timestamps to the trailing
60-second window and admits iff the pruned count is strictly below 20,
recording the current timestamp exactly on admission; a denied call changes
nothing, so no stored timestamp list ever exceeds 20 entries when starting
from an empty map; 20 admits in one window succeed, the 21st is denied, and
one more check 61 seconds later is admitted again. -/
theorem claim_c5_rate_limiter :
    (∀ (m : RateMap) (id : String) (now : Int),
        (checkRateLimit m id now).1 = true ↔
          (recentCallsOf m id now).length < MAX_API_CALLS_PER_MINUTE)
    ∧ (∀ (m : RateMap) (id : String) (now : Int),
        (checkRateLimit m id now).1 = true →
          rateMapGet (checkRateLimit m id now).2 id = recentCallsOf m id now ++ [now])
    ∧ (∀ (m : RateMap) (id : String) (now : Int),
        (checkRateLimit m id now).1 = false → (checkRateLimit m id now).2 = m)
    ∧ (∀ (calls : List (String × Int)) (id : String),
        (rateMapGet (runChecks [] calls) id).length ≤ MAX_API_CALLS_PER_MINUTE)
    ∧ (runChecksResults [] (List.replicate 20 ("ip", 0))).1 = List.replicate 20 true
    ∧ (checkRateLimit (runChecks [] (List.replicate 20 ("ip", 0))) "ip" 0).1 = false
    ∧ (checkRateLimit (runChecks [] (List.replicate 20 ("ip", 0))) "ip" 61000).1 = true := by
  refine ⟨fun m id now => ?_, fun m id now => ?_, fun m id now => ?_,
    fun calls id => ?_, by decide, by decide, by decide⟩
  · unfold checkRateLimit
    by_cases hcap : (recentCallsOf m id now).length ≥ MAX_API_CALLS_PER_MINUTE
    · simp [hcap, Nat.not_lt_of_le hcap]
    · simp [hcap, Nat.lt_of_not_le hcap]
  · intro hadm
    unfold checkRateLimit at hadm ⊢
    by_cases hcap : (recentCallsOf m id now).length ≥ MAX_API_CALLS_PER_MINUTE
    · simp [hcap] at hadm
    · simp only [hcap, ite_false, if_neg]
      exact rateMapGet_set_self m id _
  · intro hden
    unfold checkRateLimit at hden ⊢
    by_cases hcap : (recentCallsOf m id now).length ≥ MAX_API_CALLS_PER_MINUTE
    · simp [hcap]
    · simp [hcap] at hden
  · exact runChecks_preserves_bound calls []
      (fun id' => by simp [rateMapGet, List.find?]) id

/-- Witness for C5: an admission on a fresh map records exactly the new
timestamp, and the check on a fresh map admits. -/
theorem claim_c5_witness :
    rateMapGet (checkRateLimit [] "ip" 5).2 "ip" = recentCallsOf [] "ip" 5 ++ [5] :=
  claim_c5_rate_limiter.2.1 [] "ip" 5 (by decide)

/-- C1 counterexample: for the chat request "Explain how property tax
assessments work" the classifier selects the GENERAL backend (gemini) as
primary; when that primary fails, the handler surfaces a 500 error with zero
calls to the other backend — even though the other backend would have
succeeded — refuting "the Chat Orchestrator calls the other backend exactly
once" and "surfaced as an error only if both backends fail". -/
theorem claim_c1_counterexample :
    determineAiSource "Explain how property tax assessments work" = "gemini"
    ∧ (sendHandler "Explain how property tax assessments work"
        ⟨Except.ok "ok", Except.error "gemini down"⟩).status = 500
    ∧ (sendHandler "Explain how property tax assessments work"
        ⟨Except.ok "ok", Except.error "gemini down"⟩).perplexityCalls = 0
    ∧ (⟨Except.ok "ok", Except.error "gemini down"⟩ : ChatBehavior).perplexity
        = Except.ok "ok" := by
  exact ⟨by decide, by decide, by decide, rfl⟩

/-- C1 amended: fallback is one-directional. When the classifier selects the
LIVE backend (perplexity) and it fails, the GENERAL backend (gemini) is
called exactly once and its success is returned tagged `gemini`; the request
errors iff the perplexity-primary path has both backends fail or the
gemini-primary path has gemini fail — on a gemini-primary failure no call to
perplexity is made. -/
theorem claim_c1_amended :
    ∀ (message : String) (beh : ChatBehavior), jsTrim message ≠ "" →
      ((determineAiSource message = "perplexity" →
          (∀ v, beh.perplexity = Except.ok v →
            sendHandler message beh
              = ⟨200, true, some v, none, "perplexity", 1, 0⟩)
          ∧ (∀ e v, beh.perplexity = Except.error e → beh.gemini = Except.ok v →
            sendHandler message beh
              = ⟨200, true, some v, none, "gemini", 1, 1⟩)
          ∧ (∀ e e', beh.perplexity = Except.error e → beh.gemini = Except.error e' →
            sendHandler message beh
              = ⟨500, false, none, some e', "perplexity", 1, 1⟩))
        ∧ (determineAiSource message ≠ "perplexity" →
          (∀ v, beh.gemini = Except.ok v →
            sendHandler message beh
              = ⟨200, true, some v, none, "gemini", 0, 1⟩)
          ∧ (∀ e, beh.gemini = Except.error e →
            sendHandler message beh
              = ⟨500, false, none, some e, "gemini", 0, 1⟩))) := by
  intro message beh hmsg
  constructor
  · intro hsrc
    refine ⟨fun v hv => ?_, fun e v he hv => ?_, fun e e' he he' => ?_⟩
    · simp [sendHandler, hmsg, hsrc, hv]
    · simp [sendHandler, hmsg, hsrc, he, hv]
    · simp [sendHandler, hmsg, hsrc, he, he']
  · intro hsrc
    refine ⟨fun v hv => ?_, fun e he => ?_⟩
    · simp [sendHandler, hmsg, hsrc, hv]
    · simp [sendHandler, hmsg, hsrc, he]

/-- Witness for C1 (amended): the LIVE-classified reference query with a
failing perplexity backend and a succeeding gemini backend returns 200
tagged `gemini` with exactly one call to each backend. -/
theorem claim_c1_witness :
    sendHandler "What\x27s the weather like today in Indianapolis?"
        ⟨Except.error "perplexity down", Except.ok "fallback answer"⟩
      = ⟨200, true, some "fallback answer", none, "gemini", 1, 1⟩ :=
  ((claim_c1_amended "What\x27s the weather like today in Indianapolis?"
      ⟨Except.error "perplexity down", Except.ok "fallback answer"⟩
      (by decide)).1 (by decide)).2.1 "perplexity down" "fallback answer" rfl rfl

/-- An upstream error leaves the cache of a provider fetch unchanged. -/
theorem fetchProvider_error_cache (k : String) (d : Json) (ttl : Int)
    (cache : Cache) (now : Int) (e : String) :
    (fetchProvider k d ttl cache now (Except.error e)).2.1 = cache := by
  unfold fetchProvider
  cases h : cacheGet cache now k <;> simp [h]

/-- On a cache miss with a parsing upstream response, a provider fetch
returns the parsed payload and caches it. -/
theorem fetchProvider_ok_some (k : String) (d : Json) (ttl : Int)
    (cache : Cache) (now : Int) (resp : String) (v : Json)
    (hmiss : cacheGet cache now k = none)
    (hp : jsonParse (candidateText resp) = some v) :
    fetchProvider k d ttl cache now (Except.ok resp)
      = (v, cacheSet cache now k v ttl, true) := by
  unfold fetchProvider
  rw [hmiss]
  dsimp only
  rw [hp]

/-- On a cache miss with a non-parsing upstream response, a provider fetch
returns the default payload and caches it. -/
theorem fetchProvider_ok_none (k : String) (d : Json) (ttl : Int)
    (cache : Cache) (now : Int) (resp : String)
    (hmiss : cacheGet cache now k = none)
    (hp : jsonParse (candidateText resp) = none) :
    fetchProvider k d ttl cache now (Except.ok resp)
      = (d, cacheSet cache now k d ttl, true) := by
  unfold fetchProvider
  rw [hmiss]
  dsimp only
  rw [hp]

/-- C3 counterexample: a fetch whose upstream succeeds with non-JSON text
("Sorry, no data available") hits the parse-failure branch, returns the
weather default — and creates a cache entry for the key (cached default,
TTL 600 s), so the cache is not left unchanged on a parse error. -/
theorem claim_c3_counterexample :
    getWeatherData [] 0 ⟨⟨3977, 2⟩, ⟨-8615, 2⟩, "Indianapolis, IN"⟩
        (Except.ok "Sorry, no data available")
      = (weatherDefault, [⟨"weather_39.77_-86.15", weatherDefault, 600000⟩], true)
    ∧ ([⟨"weather_39.77_-86.15", weatherDefault, 600000⟩] : Cache) ≠ ([] : Cache) :=
  ⟨rfl, by simp⟩

/-- C3 amended: shared across all six provider clients (each instantiates
`fetchProvider`): an upstream error leaves the cache unchanged; a fetch that
reaches the parse step writes a cache entry either way — the parsed payload
on parse success, the domain default on parse failure — under the domain
TTL. -/
theorem claim_c3_amended :
    (∀ (k : String) (d : Json) (ttl : Int) (cache : Cache) (now : Int) (e : String),
        (fetchProvider k d ttl cache now (Except.error e)).2.1 = cache)
    ∧ (∀ (k : String) (d : Json) (ttl : Int) (cache : Cache) (now : Int)
         (resp : String) (v : Json),
        cacheGet cache now k = none →
        jsonParse (candidateText resp) = some v →
        fetchProvider k d ttl cache now (Except.ok resp)
          = (v, cacheSet cache now k v ttl, true))
    ∧ (∀ (k : String) (d : Json) (ttl : Int) (cache : Cache) (now : Int)
         (resp : String),
        cacheGet cache now k = none →
        jsonParse (candidateText resp) = none →
        fetchProvider k d ttl cache now (Except.ok resp)
          = (d, cacheSet cache now k d ttl, true)) :=
  ⟨fetchProvider_error_cache, fetchProvider_ok_some, fetchProvider_ok_none⟩

/-- Witness for C3 (amended): a parse-success fetch on an empty cache writes
the parsed payload, and an upstream-error fetch leaves the cache empty. -/
theorem claim_c3_witness :
    fetchProvider "weather_39.77_-86.15" weatherDefault 600 [] 0
        (Except.ok "Here you go: \x7b\"temperature\":72\x7d")
      = (Json.obj [("temperature", Json.num "72")],
         cacheSet [] 0 "weather_39.77_-86.15" (Json.obj [("temperature", Json.num "72")]) 600,
         true) :=
  claim_c3_amended.2.1 "weather_39.77_-86.15" weatherDefault 600 [] 0
    "Here you go: \x7b\"temperature\":72\x7d" (Json.obj [("temperature", Json.num "72")])
    rfl rfl

/-- C7 counterexample: two latitudes that agree when rounded even at six
decimal places (far finer than any credible "rounded coordinates") still
produce different weather cache keys — the key embeds the coordinate text
verbatim, unrounded. -/
theorem claim_c7_counterexample :
    weatherCacheKey ⟨⟨397684451, 7⟩, ⟨-861581449, 7⟩, "Indianapolis, IN"⟩
      ≠ weatherCacheKey ⟨⟨397684449, 7⟩, ⟨-861581449, 7⟩, "Indianapolis, IN"⟩
    ∧ roundedCoordSpec 6 ⟨397684451, 7⟩ = roundedCoordSpec 6 ⟨397684449, 7⟩ := by
  exact ⟨by decide, by decide⟩

/-- C7 amended: every provider key is the domain name plus the exact
(unrounded) coordinate renderings — except market, whose key is the domain
name plus the calendar date and is independent of location — and a
successfully parsed fetch caches under the domain TTL: weather and
air-quality 600 s, traffic 300 s, health and crime 1800 s, market 3600 s. -/
theorem claim_c7_amended :
    (∀ loc : Location,
        weatherCacheKey loc = "weather_" ++ loc.lat.render ++ "_" ++ loc.lng.render
        ∧ airQualityCacheKey loc = "air_quality_" ++ loc.lat.render ++ "_" ++ loc.lng.render
        ∧ trafficCacheKey loc = "traffic_" ++ loc.lat.render ++ "_" ++ loc.lng.render
        ∧ healthCacheKey loc = "health_" ++ loc.lat.render ++ "_" ++ loc.lng.render
        ∧ crimeCacheKey loc = "crime_" ++ loc.lat.render ++ "_" ++ loc.lng.render)
    ∧ (∀ dateStr : String, marketCacheKey dateStr = "markets_" ++ dateStr)
    ∧ (∀ (now : Int) (loc : Location) (prefs : Json) (dateStr resp : String) (v : Json),
        jsonParse (candidateText resp) = some v →
        getWeatherData [] now loc (Except.ok resp)
            = (v, [⟨weatherCacheKey loc, v, now + 600 * 1000⟩], true)
        ∧ getAirQualityData [] now loc (Except.ok resp)
            = (v, [⟨airQualityCacheKey loc, v, now + 600 * 1000⟩], true)
        ∧ getTrafficData [] now loc (Except.ok resp)
            = (v, [⟨trafficCacheKey loc, v, now + 300 * 1000⟩], true)
        ∧ getHealthData [] now loc prefs (Except.ok resp)
            = (v, [⟨healthCacheKey loc, v, now + 1800 * 1000⟩], true)
        ∧ getCrimeData [] now loc (Except.ok resp)
            = (v, [⟨crimeCacheKey loc, v, now + 1800 * 1000⟩], true)
        ∧ getMarketData [] now dateStr loc (Except.ok resp)
            = (v, [⟨marketCacheKey dateStr, v, now + 3600 * 1000⟩], true))
    ∧ (∀ (cache : Cache) (now : Int) (dateStr : String) (loc1 loc2 : Location)
         (up : Except String String),
        getMarketData cache now dateStr loc1 up = getMarketData cache now dateStr loc2 up) := by
  refine ⟨fun loc => ⟨rfl, rfl, rfl, rfl, rfl⟩, fun dateStr => rfl,
    fun now loc prefs dateStr resp v hp => ?_, fun cache now dateStr loc1 loc2 up => rfl⟩
  refine ⟨?_, ?_, ?_, ?_, ?_, ?_⟩ <;>
    exact fetchProvider_ok_some _ _ _ [] now resp v rfl hp

/-- Witness for C7 (amended): a parse-success weather fetch at a concrete
location caches the parsed object for 600 s under the verbatim-coordinate
key. -/
theorem claim_c7_witness :
    getWeatherData [] 0 ⟨⟨3977, 2⟩, ⟨-8615, 2⟩, "Indianapolis, IN"⟩
        (Except.ok "\x7b\"temperature\":72\x7d")
      = (Json.obj [("temperature", Json.num "72")],
         [⟨weatherCacheKey ⟨⟨3977, 2⟩, ⟨-8615, 2⟩, "Indianapolis, IN"⟩,
           Json.obj [("temperature", Json.num "72")], 0 + 600 * 1000⟩], true) :=
  ((claim_c7_amended.2.2.1 0 ⟨⟨3977, 2⟩, ⟨-8615, 2⟩, "Indianapolis, IN"⟩ (Json.obj [])
      "Wed Jan 01 2025" "\x7b\"temperature\":72\x7d"
      (Json.obj [("temperature", Json.num "72")]) rfl)).1

/-- Scanning for the first opening brace skips a brace-free prefix. -/
theorem suffixFromFirstBrace_append (p rest : List Char) (h : braceOpen ∉ p) :
    suffixFromFirstBrace (p ++ braceOpen :: rest) = some (braceOpen :: rest) := by
  induction p with
  | nil => simp [suffixFromFirstBrace]
  | cons a as ih =>
    have ha : a ≠ braceOpen := fun e => h (e ▸ List.mem_cons_self a as)
    simp only [List.cons_append, suffixFromFirstBrace, if_neg ha]
    exact ih (fun hm => h (List.mem_cons_of_mem a hm))

/-- Scanning for the first closing brace skips a brace-free prefix. -/
theorem suffixFromFirstClose_append (p rest : List Char) (h : braceClose ∉ p) :
    suffixFromFirstClose (p ++ braceClose :: rest) = some (braceClose :: rest) := by
  induction p with
  | nil => simp [suffixFromFirstClose]
  | cons a as ih =>
    have ha : a ≠ braceClose := fun e => h (e ▸ List.mem_cons_self a as)
    simp only [List.cons_append, suffixFromFirstClose, if_neg ha]
    exact ih (fun hm => h (List.mem_cons_of_mem a hm))

/-- C8 counterexample: on upstream text holding a balanced JSON object
followed by prose with one more closing brace, the implemented regex
extraction returns the span from the first opening to the *last* closing
brace — not the first balanced object — so the extracted substring differs
from the spec's "first balanced JSON object substring" (and no longer
parses). -/
theorem claim_c8_counterexample :
    jsonObjectRegexMatch "\x7b\"a\":1\x7d and more\x7d".data
        = some "\x7b\"a\":1\x7d and more\x7d".data
    ∧ firstBalancedObjectSpec "\x7b\"a\":1\x7d and more\x7d".data
        = some "\x7b\"a\":1\x7d".data
    ∧ ("\x7b\"a\":1\x7d and more\x7d".data ≠ "\x7b\"a\":1\x7d".data)
    ∧ jsonParse (candidateText "\x7b\"a\":1\x7d and more\x7d") = none
    ∧ jsonParse "\x7b\"a\":1\x7d" = some (Json.obj [("a", Json.num "1")]) :=
  ⟨rfl, rfl, by decide, rfl, rfl⟩

/-- C8 amended: the extraction takes the substring from the first opening
brace to the last closing brace of the whole text (leftmost greedy match of
the source regex): for any decomposition with a brace-free prefix before the
first opening brace and no closing brace after the last one, the match is
exactly that enclosed span, whatever lies between. -/
theorem claim_c8_amended :
    ∀ (p m q : List Char), braceOpen ∉ p → braceClose ∉ q →
      jsonObjectRegexMatch (p ++ braceOpen :: (m ++ braceClose :: q))
        = some (braceOpen :: (m ++ [braceClose])) := by
  intro p m q hp hq
  unfold jsonObjectRegexMatch
  rw [suffixFromFirstBrace_append p _ hp]
  dsimp only
  unfold prefixThroughLastClose
  have hrev : (braceOpen :: (m ++ braceClose :: q)).reverse
      = q.reverse ++ braceClose :: (m.reverse ++ [braceOpen]) := by
    simp
  rw [hrev, suffixFromFirstClose_append q.reverse _ (by simpa using hq)]
  have hrev2 : (braceClose :: (m.reverse ++ [braceOpen])).reverse
      = braceOpen :: (m ++ [braceClose]) := by
    simp
  dsimp only
  rw [hrev2]
  have hlen : (braceOpen :: (m ++ [braceClose])).length ≥ 2 := by
    simp only [List.length_cons, List.length_append, List.length_singleton]
    omega
  rw [if_pos hlen]

/-- Witness for C8 (amended): concrete prose around a braced span; the match
runs from the first opening brace through the final closing brace. -/
theorem claim_c8_witness :
    jsonObjectRegexMatch ("prose ".data ++ braceOpen :: ("\"a\":1".data ++ braceClose :: " end".data))
      = some (braceOpen :: ("\"a\":1".data ++ [braceClose])) :=
  claim_c8_amended "prose ".data "\"a\":1".data " end".data (by decide) (by decide)

/-- A six-element suffix is empty exactly for the empty history. -/
theorem lastN_six_eq_nil_iff (l : List Turn) : lastN 6 l = [] ↔ l = [] := by
  unfold lastN
  rw [List.drop_eq_nil_iff]
  constructor
  · intro h
    have : l.length = 0 := by omega
    exact List.length_eq_zero.mp this
  · intro h
    subst h
    simp

/-- Taking a shorter suffix of a longer suffix is taking it directly. -/
theorem lastN_of_lastN (k n : Nat) (hkn : k ≤ n) (l : List α) :
    lastN k (lastN n l) = lastN k l := by
  unfold lastN
  rw [List.length_drop, List.drop_drop]
  congr 1
  omega

/-- The rendered conversation context reads only the last six turns. -/
theorem contextHistory_congr (h1 h2 : List Turn) (h : lastN 6 h1 = lastN 6 h2) :
    contextHistory h1 = contextHistory h2 := by
  rcases eq_or_ne h1 [] with rfl | hne
  · have h2nil : h2 = [] := (lastN_six_eq_nil_iff h2).mp (by simpa [lastN] using h.symm)
    subst h2nil
    rfl
  · have hne2 : h2 ≠ [] := by
      intro e
      subst e
      exact hne ((lastN_six_eq_nil_iff h1).mp (by simpa [lastN] using h))
    have l1 : h1.length > 0 := List.length_pos.mpr hne
    have l2 : h2.length > 0 := List.length_pos.mpr hne2
    unfold contextHistory
    rw [if_pos l1, if_pos l2, h]

/-- The system prompt reads the history only through the last six turns. -/
theorem getSystemPrompt_congr (h1 h2 : List Turn) (u : UserData)
    (h : lastN 6 h1 = lastN 6 h2) : getSystemPrompt h1 u = getSystemPrompt h2 u := by
  unfold getSystemPrompt
  rw [contextHistory_congr h1 h2 h]

/-- C9 amended: prompt construction for both backends reads at most the most
recent six turns (the message lists slice the last five, the system
instruction embedded in them slices the last six): histories agreeing on
their last six turns produce identical Perplexity messages and identical
Gemini contents. -/
theorem claim_c9_amended :
    ∀ (query : String) (u : UserData) (fd : Option FileData) (h1 h2 : List Turn),
      lastN 6 h1 = lastN 6 h2 →
      perplexityMessages query h1 u = perplexityMessages query h2 u
      ∧ geminiContents query h1 u fd = geminiContents query h2 u fd := by
  intro query u fd h1 h2 h
  have h5 : lastN 5 h1 = lastN 5 h2 := by
    rw [← lastN_of_lastN 5 6 (by omega) h1, h, lastN_of_lastN 5 6 (by omega) h2]
  have hsp : getSystemPrompt h1 u = getSystemPrompt h2 u := getSystemPrompt_congr h1 h2 u h
  constructor
  · unfold perplexityMessages cleanedHistoryPerplexity
    rw [h5, hsp]
  · unfold geminiContents cleanedHistoryGemini
    rw [h5, hsp]

/-- Witness for C9 (amended): two concrete histories agreeing on their last
six turns (one has a seventh, older turn) yield identical Perplexity message
arrays. -/
theorem claim_c9_witness :
    perplexityMessages "hello"
        [⟨"user", "old"⟩, ⟨"user", "a"⟩, ⟨"assistant", "b"⟩, ⟨"user", "c"⟩,
         ⟨"assistant", "d"⟩, ⟨"user", "e"⟩, ⟨"assistant", "f"⟩]
        ⟨"Ansh", "46201", "555-0100", "O+", "m"⟩
      = perplexityMessages "hello"
        [⟨"user", "ignored"⟩, ⟨"user", "a"⟩, ⟨"assistant", "b"⟩, ⟨"user", "c"⟩,
         ⟨"assistant", "d"⟩, ⟨"user", "e"⟩, ⟨"assistant", "f"⟩]
        ⟨"Ansh", "46201", "555-0100", "O+", "m"⟩ :=
  (claim_c9_amended "hello" ⟨"Ansh", "46201", "555-0100", "O+", "m"⟩ none
    [⟨"user", "old"⟩, ⟨"user", "a"⟩, ⟨"assistant", "b"⟩, ⟨"user", "c"⟩,
     ⟨"assistant", "d"⟩, ⟨"user", "e"⟩, ⟨"assistant", "f"⟩]
    [⟨"user", "ignored"⟩, ⟨"user", "a"⟩, ⟨"assistant", "b"⟩, ⟨"user", "c"⟩,
     ⟨"assistant", "d"⟩, ⟨"user", "e"⟩, ⟨"assistant", "f"⟩]
    (by decide)).1

/-- C9 counterexample: two histories of six turns agreeing on their last
five but differing in the sixth-from-last turn produce different system
instructions and different Perplexity message arrays — the sixth-from-last
turn (older than the last 5) does affect the constructed prompt, because
`getSystemPrompt` renders `slice(-6)`. -/
theorem claim_c9_counterexample :
    lastN 5 ([⟨"user", "a"⟩, ⟨"user", "b"⟩, ⟨"assistant", "c"⟩, ⟨"user", "d"⟩,
          ⟨"assistant", "e"⟩, ⟨"user", "f"⟩] : List Turn)
      = lastN 5 [⟨"user", "aXX"⟩, ⟨"user", "b"⟩, ⟨"assistant", "c"⟩, ⟨"user", "d"⟩,
          ⟨"assistant", "e"⟩, ⟨"user", "f"⟩]
    ∧ getSystemPrompt
        [⟨"user", "a"⟩, ⟨"user", "b"⟩, ⟨"assistant", "c"⟩, ⟨"user", "d"⟩,
         ⟨"assistant", "e"⟩, ⟨"user", "f"⟩] ⟨"Ansh", "46201", "555-0100", "O+", "m"⟩
      ≠ getSystemPrompt
        [⟨"user", "aXX"⟩, ⟨"user", "b"⟩, ⟨"assistant", "c"⟩, ⟨"user", "d"⟩,
         ⟨"assistant", "e"⟩, ⟨"user", "f"⟩] ⟨"Ansh", "46201", "555-0100", "O+", "m"⟩
    ∧ perplexityMessages "hello"
        [⟨"user", "a"⟩, ⟨"user", "b"⟩, ⟨"assistant", "c"⟩, ⟨"user", "d"⟩,
         ⟨"assistant", "e"⟩, ⟨"user", "f"⟩] ⟨"Ansh", "46201", "555-0100", "O+", "m"⟩
      ≠ perplexityMessages "hello"
        [⟨"user", "aXX"⟩, ⟨"user", "b"⟩, ⟨"assistant", "c"⟩, ⟨"user", "d"⟩,
         ⟨"assistant", "e"⟩, ⟨"user", "f"⟩] ⟨"Ansh", "46201", "555-0100", "O+", "m"⟩ := by
  have hctx : (contextHistory [⟨"user", "a"⟩, ⟨"user", "b"⟩, ⟨"assistant", "c"⟩, ⟨"user", "d"⟩,
        ⟨"assistant", "e"⟩, ⟨"user", "f"⟩]).length
      ≠ (contextHistory [⟨"user", "aXX"⟩, ⟨"user", "b"⟩, ⟨"assistant", "c"⟩, ⟨"user", "d"⟩,
        ⟨"assistant", "e"⟩, ⟨"user", "f"⟩]).length := by decide
  have hlen : (getSystemPrompt
        [⟨"user", "a"⟩, ⟨"user", "b"⟩, ⟨"assistant", "c"⟩, ⟨"user", "d"⟩,
         ⟨"assistant", "e"⟩, ⟨"user", "f"⟩] ⟨"Ansh", "46201", "555-0100", "O+", "m"⟩).length
      ≠ (getSystemPrompt
        [⟨"user", "aXX"⟩, ⟨"user", "b"⟩, ⟨"assistant", "c"⟩, ⟨"user", "d"⟩,
         ⟨"assistant", "e"⟩, ⟨"user", "f"⟩] ⟨"Ansh", "46201", "555-0100", "O+", "m"⟩).length := by
    simp only [getSystemPrompt, String.length_append]
    omega
  refine ⟨by decide, fun e => hlen (congrArg String.length e), fun e => ?_⟩
  have h0 := congrArg (fun l => List.head? l) e
  simp only [perplexityMessages, List.cons_append, List.head?_cons, Option.some.injEq,
    Prod.mk.injEq, true_and] at h0
  have h1 := congrArg String.length h0
  simp only [String.length_append] at h1
  omega

/-- Strings with different first characters are different. -/
theorem string_ne_of_head_ne {x y : String} (h : x.data.head? ≠ y.data.head?) : x ≠ y :=
  fun e => h (by rw [e])

/-- The first character of an appended string with a literal prefix. -/
theorem head_of_append (p r : String) (c : Char) (hp : p.data.head? = some c) :
    (p ++ r).data.head? = some c := by
  have h : (p ++ r).data = p.data ++ r.data := rfl
  rw [h, List.head?_append, hp]
  rfl

/-- Searching the cache for one key ignores the removal of a different key. -/
theorem cache_find?_filter_ne (c : Cache) (k k' : String) (h : k' ≠ k) :
    List.find? (fun e => e.key = k') (c.filter (fun e => e.key ≠ k))
      = List.find? (fun e => e.key = k') c := by
  induction c with
  | nil => rfl
  | cons a as ih =>
    by_cases hak : a.key = k
    · have ha' : ¬a.key = k' := by rw [hak]; exact Ne.symm h
      rw [List.filter_cons, if_neg (by simp [hak]), ih,
        List.find?_cons_of_neg as (by simp [ha'])]
    · by_cases ha' : a.key = k'
      · rw [List.filter_cons, if_pos (by simp [hak]),
          List.find?_cons_of_pos _ (by simp [ha']),
          List.find?_cons_of_pos _ (by simp [ha'])]
      · rw [List.filter_cons, if_pos (by simp [hak]),
          List.find?_cons_of_neg _ (by simp [ha']),
          List.find?_cons_of_neg _ (by simp [ha']), ih]

/-- Reading the key just written, within its TTL, returns the new value. -/
theorem cacheGet_set_same (c : Cache) (now now2 : Int) (k : String) (v : Json)
    (ttl : Int) (h : now2 ≤ now + ttl * 1000) :
    cacheGet (cacheSet c now k v ttl) now2 k = some v := by
  unfold cacheGet cacheSet
  rw [List.find?_cons_of_pos _ (by simp)]
  simpa using h

/-- Writing one key leaves reads of any other key unchanged. -/
theorem cacheGet_set_other (c : Cache) (now now2 : Int) (k k' : String) (v : Json)
    (ttl : Int) (h : k' ≠ k) :
    cacheGet (cacheSet c now k v ttl) now2 k' = cacheGet c now2 k' := by
  unfold cacheGet cacheSet
  rw [List.find?_cons_of_neg _ (by simp [Ne.symm h]), cache_find?_filter_ne c k k' h]

/-- On a cache miss the fetched value is `providerValue` of the upstream. -/
theorem fetchProvider_val_of_miss (k : String) (d : Json) (ttl : Int) (c : Cache)
    (now : Int) (up : Except String String) (hmiss : cacheGet c now k = none) :
    (fetchProvider k d ttl c now up).1 = providerValue up d := by
  unfold fetchProvider providerValue
  rw [hmiss]
  cases up with
  | error e => rfl
  | ok resp => dsimp only

/-- A provider fetch never changes what any other key reads back. -/
theorem fetchProvider_cache_other (k : String) (d : Json) (ttl : Int) (c : Cache)
    (now now2 : Int) (up : Except String String) (k' : String) (h : k' ≠ k) :
    cacheGet ((fetchProvider k d ttl c now up).2.1) now2 k' = cacheGet c now2 k' := by
  unfold fetchProvider
  cases hmiss : cacheGet c now k with
  | some v => rfl
  | none =>
    cases up with
    | error e => rfl
    | ok resp =>
      dsimp only
      exact cacheGet_set_other c now now2 k k' _ ttl h

/-- Strings with distinct known first characters differ. -/
theorem keys_ne_of_heads {x y : String} {c d : Char} (hx : x.data.head? = some c)
    (hy : y.data.head? = some d) (h : c ≠ d) : x ≠ y :=
  string_ne_of_head_ne (by rw [hx, hy]; exact fun e => h (Option.some.inj e))

/-- First character of the weather key. -/
theorem weatherCacheKey_head (loc : Location) :
    (weatherCacheKey loc).data.head? = some 'w' :=
  head_of_append _ _ _ (head_of_append _ _ _ (head_of_append _ _ _ (by decide)))

/-- First character of the air-quality key. -/
theorem airQualityCacheKey_head (loc : Location) :
    (airQualityCacheKey loc).data.head? = some 'a' :=
  head_of_append _ _ _ (head_of_append _ _ _ (head_of_append _ _ _ (by decide)))

/-- First character of the traffic key. -/
theorem trafficCacheKey_head (loc : Location) :
    (trafficCacheKey loc).data.head? = some 't' :=
  head_of_append _ _ _ (head_of_append _ _ _ (head_of_append _ _ _ (by decide)))

/-- First character of the health key. -/
theorem healthCacheKey_head (loc : Location) :
    (healthCacheKey loc).data.head? = some 'h' :=
  head_of_append _ _ _ (head_of_append _ _ _ (head_of_append _ _ _ (by decide)))

/-- First character of the crime key. -/
theorem crimeCacheKey_head (loc : Location) :
    (crimeCacheKey loc).data.head? = some 'c' :=
  head_of_append _ _ _ (head_of_append _ _ _ (head_of_append _ _ _ (by decide)))

/-- First character of the market key. -/
theorem marketCacheKey_head (dateStr : String) :
    (marketCacheKey dateStr).data.head? = some 'm' :=
  head_of_append _ _ _ (by decide)

/-- First character of the composite environmental key. -/
theorem environmentalCacheKey_head (loc : Location) (prefs : Option Json) :
    (environmentalCacheKey loc prefs).data.head? = some 'e' :=
  head_of_append _ _ _ (head_of_append _ _ _ (head_of_append _ _ _
    (head_of_append _ _ _ (head_of_append _ _ _ (by decide)))))

/-- On a cache miss the provider fetch does consult its upstream. -/
theorem fetchProvider_called_of_miss (k : String) (d : Json) (ttl : Int) (c : Cache)
    (now : Int) (up : Except String String) (hmiss : cacheGet c now k = none) :
    (fetchProvider k d ttl c now up).2.2 = true := by
  unfold fetchProvider
  rw [hmiss]
  cases up with
  | error e => rfl
  | ok resp => dsimp only

/-- C2: with a valid location, an admitted request and a fresh cache, the
aggregation returns status 200 for every combination of upstream outcomes
(all six upstreams are consulted, 0 through 6 of them failing): the body is
the fully shaped snapshot holding every domain field plus `lastUpdated` and
`location`, and every domain whose upstream fails carries its structurally
complete default payload. -/
theorem claim_c2_aggregation :
    ∀ (rateMap : RateMap) (now : Int) (nowIso dateStr clientIP : String) (loc : Location)
      (prefs : Option Json) (ups : EnvUpstreams),
      ¬loc.lat.isZero → ¬loc.lng.isZero → loc.address ≠ "" →
      (checkRateLimit rateMap clientIP now).1 = true →
      (let r := environmentalDataRoute [] rateMap now nowIso dateStr clientIP (some loc) prefs ups
       r.status = 200
       ∧ r.upstreamCalls = 6
       ∧ r.body = mkEnvironmentalData (providerValue ups.weather weatherDefault)
           (providerValue ups.airQuality airQualityDefault)
           (providerValue ups.traffic trafficDefault)
           (providerValue ups.health healthDefault)
           (providerValue ups.crime crimeDefault)
           (providerValue ups.markets marketDefault) nowIso loc.address
       ∧ (∀ field : String,
            field ∈ ["weather", "airQuality", "traffic", "health", "crime", "markets",
              "lastUpdated", "location"] → (jsonGet r.body field).isSome)
       ∧ (∀ e, ups.weather = Except.error e → jsonGet r.body "weather" = some weatherDefault)
       ∧ (∀ e, ups.airQuality = Except.error e →
            jsonGet r.body "airQuality" = some airQualityDefault)
       ∧ (∀ e, ups.traffic = Except.error e → jsonGet r.body "traffic" = some trafficDefault)
       ∧ (∀ e, ups.health = Except.error e → jsonGet r.body "health" = some healthDefault)
       ∧ (∀ e, ups.crime = Except.error e → jsonGet r.body "crime" = some crimeDefault)
       ∧ (∀ e, ups.markets = Except.error e → jsonGet r.body "markets" = some marketDefault)) := by
  intro rateMap now nowIso dateStr clientIP loc prefs ups hlat hlng haddr hadm
  have hvalid : ¬(loc.lat.isZero = true ∨ loc.lng.isZero = true ∨ loc.address = "") := by
    push_neg
    exact ⟨by simpa using hlat, by simpa using hlng, haddr⟩
  have neAW : airQualityCacheKey loc ≠ weatherCacheKey loc :=
    keys_ne_of_heads (airQualityCacheKey_head loc) (weatherCacheKey_head loc) (by decide)
  have neTW : trafficCacheKey loc ≠ weatherCacheKey loc :=
    keys_ne_of_heads (trafficCacheKey_head loc) (weatherCacheKey_head loc) (by decide)
  have neTA : trafficCacheKey loc ≠ airQualityCacheKey loc :=
    keys_ne_of_heads (trafficCacheKey_head loc) (airQualityCacheKey_head loc) (by decide)
  have neHW : healthCacheKey loc ≠ weatherCacheKey loc :=
    keys_ne_of_heads (healthCacheKey_head loc) (weatherCacheKey_head loc) (by decide)
  have neHA : healthCacheKey loc ≠ airQualityCacheKey loc :=
    keys_ne_of_heads (healthCacheKey_head loc) (airQualityCacheKey_head loc) (by decide)
  have neHT : healthCacheKey loc ≠ trafficCacheKey loc :=
    keys_ne_of_heads (healthCacheKey_head loc) (trafficCacheKey_head loc) (by decide)
  have neCW : crimeCacheKey loc ≠ weatherCacheKey loc :=
    keys_ne_of_heads (crimeCacheKey_head loc) (weatherCacheKey_head loc) (by decide)
  have neCA : crimeCacheKey loc ≠ airQualityCacheKey loc :=
    keys_ne_of_heads (crimeCacheKey_head loc) (airQualityCacheKey_head loc) (by decide)
  have neCT : crimeCacheKey loc ≠ trafficCacheKey loc :=
    keys_ne_of_heads (crimeCacheKey_head loc) (trafficCacheKey_head loc) (by decide)
  have neCH : crimeCacheKey loc ≠ healthCacheKey loc :=
    keys_ne_of_heads (crimeCacheKey_head loc) (healthCacheKey_head loc) (by decide)
  have neMW : marketCacheKey dateStr ≠ weatherCacheKey loc :=
    keys_ne_of_heads (marketCacheKey_head dateStr) (weatherCacheKey_head loc) (by decide)
  have neMA : marketCacheKey dateStr ≠ airQualityCacheKey loc :=
    keys_ne_of_heads (marketCacheKey_head dateStr) (airQualityCacheKey_head loc) (by decide)
  have neMT : marketCacheKey dateStr ≠ trafficCacheKey loc :=
    keys_ne_of_heads (marketCacheKey_head dateStr) (trafficCacheKey_head loc) (by decide)
  have neMH : marketCacheKey dateStr ≠ healthCacheKey loc :=
    keys_ne_of_heads (marketCacheKey_head dateStr) (healthCacheKey_head loc) (by decide)
  have neMC : marketCacheKey dateStr ≠ crimeCacheKey loc :=
    keys_ne_of_heads (marketCacheKey_head dateStr) (crimeCacheKey_head loc) (by decide)
  have hm1 : cacheGet ((getWeatherData [] now loc ups.weather).2.1) now
      (airQualityCacheKey loc) = none := by
    unfold getWeatherData
    rw [fetchProvider_cache_other _ _ _ _ _ _ _ _ neAW]
    rfl
  have hm2 : cacheGet ((getAirQualityData ((getWeatherData [] now loc ups.weather).2.1)
      now loc ups.airQuality).2.1) now (trafficCacheKey loc) = none := by
    unfold getAirQualityData getWeatherData
    rw [fetchProvider_cache_other _ _ _ _ _ _ _ _ neTA,
      fetchProvider_cache_other _ _ _ _ _ _ _ _ neTW]
    rfl
  have hm3 : cacheGet ((getTrafficData ((getAirQualityData
      ((getWeatherData [] now loc ups.weather).2.1) now loc ups.airQuality).2.1)
      now loc ups.traffic).2.1) now (healthCacheKey loc) = none := by
    unfold getTrafficData getAirQualityData getWeatherData
    rw [fetchProvider_cache_other _ _ _ _ _ _ _ _ neHT,
      fetchProvider_cache_other _ _ _ _ _ _ _ _ neHA,
      fetchProvider_cache_other _ _ _ _ _ _ _ _ neHW]
    rfl
  have hm4 : cacheGet ((getHealthData ((getTrafficData ((getAirQualityData
      ((getWeatherData [] now loc ups.weather).2.1) now loc ups.airQuality).2.1)
      now loc ups.traffic).2.1) now loc
      (prefsOrEmpty prefs) ups.health).2.1) now
      (crimeCacheKey loc) = none := by
    unfold getHealthData getTrafficData getAirQualityData getWeatherData
    rw [fetchProvider_cache_other _ _ _ _ _ _ _ _ neCH,
      fetchProvider_cache_other _ _ _ _ _ _ _ _ neCT,
      fetchProvider_cache_other _ _ _ _ _ _ _ _ neCA,
      fetchProvider_cache_other _ _ _ _ _ _ _ _ neCW]
    rfl
  have hm5 : cacheGet ((getCrimeData ((getHealthData ((getTrafficData ((getAirQualityData
      ((getWeatherData [] now loc ups.weather).2.1) now loc ups.airQuality).2.1)
      now loc ups.traffic).2.1) now loc
      (prefsOrEmpty prefs) ups.health).2.1)
      now loc ups.crime).2.1) now (marketCacheKey dateStr) = none := by
    unfold getCrimeData getHealthData getTrafficData getAirQualityData getWeatherData
    rw [fetchProvider_cache_other _ _ _ _ _ _ _ _ neMC,
      fetchProvider_cache_other _ _ _ _ _ _ _ _ neMH,
      fetchProvider_cache_other _ _ _ _ _ _ _ _ neMT,
      fetchProvider_cache_other _ _ _ _ _ _ _ _ neMA,
      fetchProvider_cache_other _ _ _ _ _ _ _ _ neMW]
    rfl
  have hwv : (getWeatherData [] now loc ups.weather).1
      = providerValue ups.weather weatherDefault :=
    fetchProvider_val_of_miss _ _ _ _ _ _ rfl
  have hav : (getAirQualityData ((getWeatherData [] now loc ups.weather).2.1)
      now loc ups.airQuality).1 = providerValue ups.airQuality airQualityDefault :=
    fetchProvider_val_of_miss _ _ _ _ _ _ hm1
  have htv : (getTrafficData ((getAirQualityData ((getWeatherData [] now loc ups.weather).2.1)
      now loc ups.airQuality).2.1) now loc ups.traffic).1
      = providerValue ups.traffic trafficDefault :=
    fetchProvider_val_of_miss _ _ _ _ _ _ hm2
  have hhv : (getHealthData ((getTrafficData ((getAirQualityData
      ((getWeatherData [] now loc ups.weather).2.1) now loc ups.airQuality).2.1)
      now loc ups.traffic).2.1) now loc
      (prefsOrEmpty prefs) ups.health).1
      = providerValue ups.health healthDefault :=
    fetchProvider_val_of_miss _ _ _ _ _ _ hm3
  have hcv : (getCrimeData ((getHealthData ((getTrafficData ((getAirQualityData
      ((getWeatherData [] now loc ups.weather).2.1) now loc ups.airQuality).2.1)
      now loc ups.traffic).2.1) now loc
      (prefsOrEmpty prefs) ups.health).2.1)
      now loc ups.crime).1 = providerValue ups.crime crimeDefault :=
    fetchProvider_val_of_miss _ _ _ _ _ _ hm4
  have hmv : (getMarketData ((getCrimeData ((getHealthData ((getTrafficData
      ((getAirQualityData ((getWeatherData [] now loc ups.weather).2.1)
      now loc ups.airQuality).2.1) now loc ups.traffic).2.1) now loc
      (prefsOrEmpty prefs) ups.health).2.1)
      now loc ups.crime).2.1) now dateStr loc ups.markets).1
      = providerValue ups.markets marketDefault :=
    fetchProvider_val_of_miss _ _ _ _ _ _ hm5
  have hwb : (getWeatherData [] now loc ups.weather).2.2 = true :=
    fetchProvider_called_of_miss _ _ _ _ _ _ rfl
  have hab : (getAirQualityData ((getWeatherData [] now loc ups.weather).2.1)
      now loc ups.airQuality).2.2 = true :=
    fetchProvider_called_of_miss _ _ _ _ _ _ hm1
  have htb : (getTrafficData ((getAirQualityData ((getWeatherData [] now loc ups.weather).2.1)
      now loc ups.airQuality).2.1) now loc ups.traffic).2.2 = true :=
    fetchProvider_called_of_miss _ _ _ _ _ _ hm2
  have hhb : (getHealthData ((getTrafficData ((getAirQualityData
      ((getWeatherData [] now loc ups.weather).2.1) now loc ups.airQuality).2.1)
      now loc ups.traffic).2.1) now loc
      (prefsOrEmpty prefs) ups.health).2.2 = true :=
    fetchProvider_called_of_miss _ _ _ _ _ _ hm3
  have hcb : (getCrimeData ((getHealthData ((getTrafficData ((getAirQualityData
      ((getWeatherData [] now loc ups.weather).2.1) now loc ups.airQuality).2.1)
      now loc ups.traffic).2.1) now loc
      (prefsOrEmpty prefs) ups.health).2.1)
      now loc ups.crime).2.2 = true :=
    fetchProvider_called_of_miss _ _ _ _ _ _ hm4
  have hmb : (getMarketData ((getCrimeData ((getHealthData ((getTrafficData
      ((getAirQualityData ((getWeatherData [] now loc ups.weather).2.1)
      now loc ups.airQuality).2.1) now loc ups.traffic).2.1) now loc
      (prefsOrEmpty prefs) ups.health).2.1)
      now loc ups.crime).2.1) now dateStr loc ups.markets).2.2 = true :=
    fetchProvider_called_of_miss _ _ _ _ _ _ hm5
  unfold environmentalDataRoute
  dsimp only
  rw [if_neg hvalid, if_neg (by simp [hadm]),
    show cacheGet [] now (environmentalCacheKey loc prefs) = none from rfl]
  dsimp only
  rw [hwv, hav, htv, hhv, hcv, hmv, hwb, hab, htb, hhb, hcb, hmb]
  refine ⟨rfl, rfl, rfl, ?_, ?_, ?_, ?_, ?_, ?_, ?_⟩
  · intro field hf
    simp only [List.mem_cons, List.mem_singleton] at hf
    rcases hf with rfl | rfl | rfl | rfl | rfl | rfl | rfl | rfl | hf
    · simp [mkEnvironmentalData, jsonGet]
    · simp [mkEnvironmentalData, jsonGet]
    · simp [mkEnvironmentalData, jsonGet]
    · simp [mkEnvironmentalData, jsonGet]
    · simp [mkEnvironmentalData, jsonGet]
    · simp [mkEnvironmentalData, jsonGet]
    · simp [mkEnvironmentalData, jsonGet]
    · simp [mkEnvironmentalData, jsonGet]
    · exact absurd hf (List.not_mem_nil field)
  · intro e he
    rw [he]
    simp [mkEnvironmentalData, jsonGet, providerValue]
  · intro e he
    rw [he]
    simp [mkEnvironmentalData, jsonGet, providerValue]
  · intro e he
    rw [he]
    simp [mkEnvironmentalData, jsonGet, providerValue]
  · intro e he
    rw [he]
    simp [mkEnvironmentalData, jsonGet, providerValue]
  · intro e he
    rw [he]
    simp [mkEnvironmentalData, jsonGet, providerValue]
  · intro e he
    rw [he]
    simp [mkEnvironmentalData, jsonGet, providerValue]

/-- Witness for C2: with all six upstreams failing, the concrete request
still gets a 200 snapshot whose weather field is the full default payload. -/
theorem claim_c2_witness :
    (environmentalDataRoute [] [] 0 "2025-01-01T00:00:00.000Z" "Wed Jan 01 2025" "1.2.3.4"
        (some ⟨⟨3977, 2⟩, ⟨-8615, 2⟩, "Indianapolis, IN"⟩) none upsAllFail).status = 200
    ∧ jsonGet (environmentalDataRoute [] [] 0 "2025-01-01T00:00:00.000Z" "Wed Jan 01 2025"
        "1.2.3.4" (some ⟨⟨3977, 2⟩, ⟨-8615, 2⟩, "Indianapolis, IN"⟩) none upsAllFail).body
        "weather" = some weatherDefault := by
  obtain ⟨h1, _, _, _, hw, _⟩ := claim_c2_aggregation [] 0 "2025-01-01T00:00:00.000Z"
    "Wed Jan 01 2025" "1.2.3.4" ⟨⟨3977, 2⟩, ⟨-8615, 2⟩, "Indianapolis, IN"⟩ none upsAllFail
    (by decide) (by decide) (by decide) (by decide)
  exact ⟨h1, hw "down" rfl⟩

/-- C4 counterexample: the composite cache key is built from `lat`, `lng`
and the stringified preferences only — the address is not part of it. Two
requests with the same coordinates but different addresses share the key,
and the second (within 5 minutes) is served the first request's cached
snapshot, whose `location` field still carries the first address, without
any upstream call — so the key is not derived from the full location
composite. -/
theorem claim_c4_counterexample :
    environmentalCacheKey ⟨⟨3977, 2⟩, ⟨-8615, 2⟩, "Address A"⟩ none
      = environmentalCacheKey ⟨⟨3977, 2⟩, ⟨-8615, 2⟩, "Address B"⟩ none
    ∧ ("Address A" : String) ≠ "Address B"
    ∧ (let r1 := environmentalDataRoute [] [] 0 "iso-1" "Wed Jan 01 2025" "1.2.3.4"
          (some ⟨⟨3977, 2⟩, ⟨-8615, 2⟩, "Address A"⟩) none upsAllFail
       let r2 := environmentalDataRoute r1.cache r1.rateMap 1000 "iso-2" "Wed Jan 01 2025"
          "1.2.3.4" (some ⟨⟨3977, 2⟩, ⟨-8615, 2⟩, "Address B"⟩) none upsAllFail
       r2.status = 200 ∧ r2.upstreamCalls = 0
         ∧ jsonGet r2.body "location" = some (Json.str "Address A")) :=
  ⟨rfl, by decide, rfl, rfl, rfl⟩

/-- Shape of a fresh (validated, admitted, composite-miss) aggregation: the
200 status, the assembled body, the composite cache write with TTL 300 s,
the updated rate map, and the fan-out call count. -/
theorem envRoute_fanout (cache : Cache) (rl : RateMap) (now : Int)
    (nowIso dateStr clientIP : String) (loc : Location) (prefs : Option Json)
    (ups : EnvUpstreams)
    (hvalid : ¬(loc.lat.isZero = true ∨ loc.lng.isZero = true ∨ loc.address = ""))
    (hadm : (checkRateLimit rl clientIP now).1 = true)
    (hmiss : cacheGet cache now (environmentalCacheKey loc prefs) = none) :
    environmentalDataRoute cache rl now nowIso dateStr clientIP (some loc) prefs ups
      = ⟨200, envBody cache now nowIso dateStr loc prefs ups,
         cacheSet (fanoutM cache now dateStr loc prefs ups).2.1 now
           (environmentalCacheKey loc prefs)
           (envBody cache now nowIso dateStr loc prefs ups) 300,
         (checkRateLimit rl clientIP now).2,
         envCalls cache now dateStr loc prefs ups, true⟩ := by
  unfold environmentalDataRoute
  dsimp only
  rw [if_neg hvalid, if_neg (show ¬((checkRateLimit rl clientIP now).1 = false) by simp [hadm]),
    hmiss]
  rfl

/-- C4 amended: the composite result of a fresh aggregation is cached for
5 minutes under the `(lat, lng, stringified preferences)` key, and a second
admitted call with the identical location and preferences within that window
returns the identical body with zero upstream calls and an unchanged
cache. -/
theorem claim_c4_amended :
    ∀ (cache : Cache) (rl1 rl2 : RateMap) (now1 now2 : Int)
      (iso1 iso2 ds1 ds2 ip1 ip2 : String) (loc : Location) (prefs : Option Json)
      (ups1 ups2 : EnvUpstreams),
      ¬loc.lat.isZero → ¬loc.lng.isZero → loc.address ≠ "" →
      (checkRateLimit rl1 ip1 now1).1 = true →
      (checkRateLimit rl2 ip2 now2).1 = true →
      cacheGet cache now1 (environmentalCacheKey loc prefs) = none →
      now2 ≤ now1 + 300 * 1000 →
      (let r1 := environmentalDataRoute cache rl1 now1 iso1 ds1 ip1 (some loc) prefs ups1
       let r2 := environmentalDataRoute r1.cache rl2 now2 iso2 ds2 ip2 (some loc) prefs ups2
       r2.status = 200 ∧ r2.body = r1.body ∧ r2.upstreamCalls = 0 ∧ r2.cache = r1.cache) := by
  intro cache rl1 rl2 now1 now2 iso1 iso2 ds1 ds2 ip1 ip2 loc prefs ups1 ups2
    hlat hlng haddr hadm1 hadm2 hmiss hwithin
  have hvalid : ¬(loc.lat.isZero = true ∨ loc.lng.isZero = true ∨ loc.address = "") := by
    push_neg
    exact ⟨by simpa using hlat, by simpa using hlng, haddr⟩
  have hr1 := envRoute_fanout cache rl1 now1 iso1 ds1 ip1 loc prefs ups1 hvalid hadm1 hmiss
  dsimp only
  rw [hr1]
  dsimp only
  unfold environmentalDataRoute
  dsimp only
  rw [if_neg hvalid, if_neg (show ¬((checkRateLimit rl2 ip2 now2).1 = false) by simp [hadm2]),
    cacheGet_set_same _ now1 now2 _ _ 300 hwithin]
  exact ⟨rfl, rfl, rfl, rfl⟩

/-- Witness for C4 (amended): a concrete fresh aggregation followed by an
identical request one second later is answered byte-identically from the
composite cache with zero upstream calls. -/
theorem claim_c4_witness :
    (let r1 := environmentalDataRoute [] [] 0 "iso-1" "Wed Jan 01 2025" "1.2.3.4"
        (some ⟨⟨3977, 2⟩, ⟨-8615, 2⟩, "Indianapolis, IN"⟩) none upsAllFail
     let r2 := environmentalDataRoute r1.cache [("1.2.3.4", [0])] 1000 "iso-2" "Wed Jan 01 2025"
        "1.2.3.4" (some ⟨⟨3977, 2⟩, ⟨-8615, 2⟩, "Indianapolis, IN"⟩) none upsAllFail
     r2.status = 200 ∧ r2.body = r1.body ∧ r2.upstreamCalls = 0 ∧ r2.cache = r1.cache) :=
  claim_c4_amended [] [] [("1.2.3.4", [0])] 0 1000 "iso-1" "iso-2" "Wed Jan 01 2025"
    "Wed Jan 01 2025" "1.2.3.4" "1.2.3.4" ⟨⟨3977, 2⟩, ⟨-8615, 2⟩, "Indianapolis, IN"⟩
    none upsAllFail upsAllFail (by decide) (by decide) (by decide) (by decide) (by decide)
    rfl (by decide)
